import Mathlib

/-!
Verification of the Watt-news candidate-discovery pipeline.

This file gives a shallow embedding, in Lean 4, of the pure core of the
pipeline: URL normalization and hashing (`app/research/dedup.py`), heuristic
scoring (`app/research/scoring.py`), LLM triage response handling
(`app/research/triage.py`), enrichment dispatch and budget accounting
(`app/research/enrichment.py` and the orchestrator in `app/tasks.py`), and the
commit / fallback persistence discipline of `research_publication_sources`.

Modelling conventions:
- Python floats are modelled as rationals (`ℚ`); `round(x, 2)` is modelled as
  round-half-to-even on rationals (`round2`), matching Python's rounding mode.
- `datetime` values are modelled as rational timestamps (seconds); the ambient
  wall clock `datetime.utcnow()` is passed explicitly as a parameter `now`.
- External services (Firecrawl, the transcript service, the LLM API, dateutil
  parsing) are modelled as explicit environment records supplied to the
  functions that call them; the repository's own logic around those calls is
  translated from the source.
- Stateful loops are modelled as folds with explicit state.
-/

/-! ## Python rounding: `round(x, 2)` (round half to even) on rationals -/

/-- Python's `round` to an integer: round half to even. -/
def pyRoundInt (x : ℚ) : ℤ :=
  if x - ⌊x⌋ < 1/2 then ⌊x⌋
  else if 1/2 < x - ⌊x⌋ then ⌊x⌋ + 1
  else if ⌊x⌋ % 2 = 0 then ⌊x⌋ else ⌊x⌋ + 1

/-- Python's `round(x, 2)`: round to two decimal places, half to even. -/
def round2 (x : ℚ) : ℚ := (pyRoundInt (x * 100) : ℚ) / 100

/-! ## String helpers shared by the embeddings

Python string primitives (`str.lower`, `str.rstrip`, `str.split`, substring
`in`, percent-coding from `urllib.parse`) are modelled over the character
lists backing Lean `String`s.  Unicode-specific case folding beyond ASCII is
not modelled (URLs and the configured keyword strings are ASCII).
-/

/-- Python `str.lower()` (ASCII case folding). -/
def lowerStr (s : String) : String := ⟨s.data.map Char.toLower⟩

/-- Python `s.rstrip(c)`: drop all trailing occurrences of `c`. -/
def rstripChar (c : Char) (s : String) : String :=
  ⟨(s.data.reverse.dropWhile (fun x => x = c)).reverse⟩

/-- Python `s.split(sep)` for a one-character separator (never returns `[]`). -/
def splitOnChar (c : Char) : List Char → List (List Char)
  | [] => [[]]
  | x :: xs =>
    match splitOnChar c xs with
    | [] => [[]]
    | y :: ys => if x = c then [] :: y :: ys else (x :: y) :: ys

/-- Python `sep.join(parts)`. -/
def joinSep (sep : String) : List String → String
  | [] => ""
  | [x] => x
  | x :: y :: xs => x ++ sep ++ joinSep sep (y :: xs)

/-- Whether `p` is a prefix of `s`, over characters (Python `s.startswith(p)`). -/
def strStartsWith (s p : String) : Bool := s.data.take p.data.length = p.data

/-- Whether the first list is a prefix of the second. -/
def isPrefixList : List Char → List Char → Bool
  | [], _ => true
  | _ :: _, [] => false
  | a :: as, b :: bs => a = b && isPrefixList as bs

/-- Substring check at every suffix position. -/
def pyInList (needle : List Char) : List Char → Bool
  | [] => isPrefixList needle []
  | c :: rest => isPrefixList needle (c :: rest) || pyInList needle rest

/-- Python substring containment `needle in hay`. -/
def pyIn (needle hay : String) : Bool := pyInList needle.data hay.data

/-! ## `app/research/dedup.py`: URL normalization and hashing

`urlparse` (Python stdlib) splits a URL string into the six components
`(scheme, netloc, path, params, query, fragment)`; the embedding starts from
that parsed form (`UrlParts`).  `parse_qs`, `urlencode` and `urlunparse` are
modelled from the stdlib at the character level (percent-coding included,
UTF-8 byte-level decoding of multi-byte sequences approximated per
character).
-/

/-- The six components returned by `urllib.parse.urlparse`. -/
structure UrlParts where
  scheme : String
  netloc : String
  path : String
  params : String
  query : String
  fragment : String

/-- `TRACKING_PARAMS` from `app/research/dedup.py`. -/
def TRACKING_PARAMS : List String :=
  ["utm_source", "utm_medium", "utm_campaign", "utm_term", "utm_content",
   "fbclid", "gclid", "ref", "mc_cid", "mc_eid"]

/-- Value of a hex digit character, if any. -/
def hexDigitVal (c : Char) : Option Nat :=
  if '0' ≤ c ∧ c ≤ '9' then some (c.toNat - '0'.toNat)
  else if 'a' ≤ c ∧ c ≤ 'f' then some (c.toNat - 'a'.toNat + 10)
  else if 'A' ≤ c ∧ c ≤ 'F' then some (c.toNat - 'A'.toNat + 10)
  else none

/-- `urllib.parse.unquote`: decode `%XX` escapes; invalid escapes are kept. -/
def percentDecode : List Char → List Char
  | [] => []
  | '%' :: a :: b :: rest =>
    match hexDigitVal a, hexDigitVal b with
    | some hi, some lo => Char.ofNat (16 * hi + lo) :: percentDecode rest
    | _, _ => '%' :: percentDecode (a :: b :: rest)
  | c :: rest => c :: percentDecode rest

/-- `unquote(x.replace('+', ' '))` as used by `parse_qsl`. -/
def unquotePlus (l : List Char) : String :=
  ⟨percentDecode (l.map (fun c => if c = '+' then ' ' else c))⟩

/-- Split a `name=value` field at the first `=` (Python `split('=', 1)`). -/
def splitFirstEq : List Char → List Char × Option (List Char)
  | [] => ([], none)
  | '=' :: rest => ([], some rest)
  | c :: rest =>
    match splitFirstEq rest with
    | (k, v) => (c :: k, v)

/-- `urllib.parse.parse_qsl(qs, keep_blank_values=True)`: split on `&`, skip
empty fields, split each at the first `=` (a field without `=` keeps a blank
value), percent-decode names and values. -/
def parse_qsl (qs : String) : List (String × String) :=
  (splitOnChar '&' qs.data).filterMap (fun nv =>
    if nv = [] then none
    else
      match splitFirstEq nv with
      | (k, v) => some (unquotePlus k, unquotePlus (v.getD [])))

/-- Fuel-driven worker for `groupByKey` (fuel bounds the number of distinct
keys; the list length is always enough). -/
def groupByKeyAux : Nat → List (String × String) → List (String × List String)
  | 0, _ => []
  | _, [] => []
  | fuel + 1, (k, v) :: rest =>
    (k, v :: (rest.filter (fun p => p.1 == k)).map Prod.snd)
      :: groupByKeyAux fuel (rest.filter (fun p => !(p.1 == k)))

/-- Group parsed fields into a dict of lists: key order is first occurrence,
values keep field order (`urllib.parse.parse_qs` result as an ordered dict). -/
def groupByKey (l : List (String × String)) : List (String × List String) :=
  groupByKeyAux l.length l

/-- `urllib.parse.parse_qs(qs, keep_blank_values=True)`. -/
def parse_qs (qs : String) : List (String × List String) :=
  groupByKey (parse_qsl qs)

/-- Characters `urllib.parse.quote` never escapes (letters, digits, `_.-~`). -/
def isAlwaysSafe (c : Char) : Bool :=
  ('a' ≤ c ∧ c ≤ 'z') ∨ ('A' ≤ c ∧ c ≤ 'Z') ∨ ('0' ≤ c ∧ c ≤ '9') ∨
    c = '_' ∨ c = '.' ∨ c = '-' ∨ c = '~'

/-- UTF-8 bytes of a character. -/
def utf8Bytes (c : Char) : List Nat :=
  let n := c.toNat
  if n < 128 then [n]
  else if n < 2048 then [192 ||| (n >>> 6), 128 ||| (n &&& 63)]
  else if n < 65536 then
    [224 ||| (n >>> 12), 128 ||| ((n >>> 6) &&& 63), 128 ||| (n &&& 63)]
  else
    [240 ||| (n >>> 18), 128 ||| ((n >>> 12) &&& 63),
     128 ||| ((n >>> 6) &&& 63), 128 ||| (n &&& 63)]

/-- Uppercase hex digit for a value below 16. -/
def upHexDigit (n : Nat) : Char :=
  if n < 10 then Char.ofNat ('0'.toNat + n) else Char.ofNat ('A'.toNat + n - 10)

/-- `urllib.parse.quote_plus` on one character: safe characters unchanged,
space becomes `+`, everything else percent-encoded per UTF-8 byte. -/
def quotePlusChar (c : Char) : List Char :=
  if isAlwaysSafe c then [c]
  else if c = ' ' then ['+']
  else (utf8Bytes c).flatMap (fun b => ['%', upHexDigit (b / 16), upHexDigit (b % 16)])

/-- `urllib.parse.quote_plus`. -/
def quote_plus (s : String) : String := ⟨s.data.flatMap quotePlusChar⟩

/-- `urllib.parse.urlencode(d, doseq=True)`: one `k=v` pair per value,
joined by `&`, keys and values quoted with `quote_plus`. -/
def urlencode (ps : List (String × List String)) : String :=
  joinSep "&" (ps.flatMap (fun kv => kv.2.map (fun v => quote_plus kv.1 ++ "=" ++ quote_plus v)))

/-- `urllib.parse.urlunparse` (via `urlunsplit`). -/
def urlunparse (scheme netloc path params query fragment : String) : String :=
  let url := if params ≠ "" then path ++ ";" ++ params else path
  let url :=
    if netloc ≠ "" ∨ (url ≠ "" ∧ strStartsWith url "//") then
      "//" ++ netloc ++ (if url ≠ "" ∧ ¬ strStartsWith url "/" then "/" ++ url else url)
    else url
  let url := if scheme ≠ "" then scheme ++ ":" ++ url else url
  let url := if query ≠ "" then url ++ "?" ++ query else url
  if fragment ≠ "" then url ++ "#" ++ fragment else url

/-- `normalize_url` from `app/research/dedup.py`: lowercase scheme and netloc,
strip trailing slashes from the path, drop tracking query parameters,
re-encode the query, and drop the fragment. -/
def normalize_url (u : UrlParts) : String :=
  let scheme := lowerStr u.scheme
  let netloc := lowerStr u.netloc
  let path := rstripChar '/' u.path
  let query_params := parse_qs u.query
  let filtered_params :=
    query_params.filter (fun kv => !(TRACKING_PARAMS.contains (lowerStr kv.1)))
  let query := urlencode filtered_params
  urlunparse scheme netloc path u.params query ""

/-! ### SHA-256 (`hashlib.sha256(...).hexdigest()`), over byte lists -/

/-- The 64 SHA-256 round constants (decimal). -/
def shaK : List Nat :=
  [116352408, 1899447441, 3049323471, 3921009573, 961987163, 1508970993,
   2453635748, 2870763221, 3624381080, 310598401, 607225278, 1426881987,
   1925078388, 2162078206, 2614888103, 3248222580, 3835390401, 4022224774,
   264347078, 604807628, 770255983, 1249150122, 1555081692, 1996064986,
   2554220882, 2821834349, 2952996808, 3210313671, 3336571891, 3584528711,
   113926993, 338241895, 666307205, 773529912, 1294757372, 1396182291,
   1695183700, 1986661051, 2177026350, 2456956037, 2730485921, 2820302411,
   3259730800, 3345764771, 3516065817, 3600352804, 4094571909, 275423344,
   430227734, 506948616, 659060556, 883997877, 958139571, 1322822218,
   1537002063, 1747873779, 1955562222, 2024104815, 2227730452, 2361852424,
   2428436474, 2756734187, 3204031479, 3329325298]

/-- The initial SHA-256 hash state (decimal). -/
def shaH0 : List Nat :=
  [779033703, 3144134277, 1013904242, 2773480762,
   1359893119, 2600822924, 528734635, 1541459225]

/-- 2^32, the modulus for 32-bit words. -/
def mod32 : Nat := 4294967296

/-- Rotate a 32-bit word right by `n`. -/
def rotr32 (n x : Nat) : Nat := ((x >>> n) ||| (x <<< (32 - n))) % mod32

/-- Big-endian 32-bit words from bytes. -/
def wordsOfBytes : List Nat → List Nat
  | b0 :: b1 :: b2 :: b3 :: rest =>
    (((b0 * 256 + b1) * 256 + b2) * 256 + b3) :: wordsOfBytes rest
  | _ => []

/-- Extend the 16 words of a chunk to the 64-word message schedule. -/
def sha256Extend (w0 : Array Nat) : Array Nat :=
  (List.range 48).foldl (fun w _ =>
    let i := w.size
    let x15 := w.getD (i - 15) 0
    let x2 := w.getD (i - 2) 0
    let s0 := (rotr32 7 x15) ^^^ (rotr32 18 x15) ^^^ (x15 >>> 3)
    let s1 := (rotr32 17 x2) ^^^ (rotr32 19 x2) ^^^ (x2 >>> 10)
    w.push ((w.getD (i - 16) 0 + s0 + w.getD (i - 7) 0 + s1) % mod32)) w0

/-- One SHA-256 compression round on the state `[a,b,c,d,e,f,g,h]`. -/
def sha256Round (st : List Nat) (ki wi : Nat) : List Nat :=
  match st with
  | [a, b, c, d, e, f, g, h] =>
    let s1 := (rotr32 6 e) ^^^ (rotr32 11 e) ^^^ (rotr32 25 e)
    let ch := (e &&& f) ^^^ ((e ^^^ 0xffffffff) &&& g)
    let t1 := (h + s1 + ch + ki + wi) % mod32
    let s0 := (rotr32 2 a) ^^^ (rotr32 13 a) ^^^ (rotr32 22 a)
    let maj := (a &&& b) ^^^ (a &&& c) ^^^ (b &&& c)
    let t2 := (s0 + maj) % mod32
    [(t1 + t2) % mod32, a, b, c, (d + t1) % mod32, e, f, g]
  | other => other

/-- Compress one 64-byte chunk into the hash state. -/
def sha256Compress (h : List Nat) (chunk : List Nat) : List Nat :=
  let w := sha256Extend (wordsOfBytes chunk).toArray
  let st := (List.range 64).foldl (fun st i => sha256Round st (shaK.getD i 0) (w.getD i 0)) h
  (h.zip st).map (fun p => (p.1 + p.2) % mod32)

/-- Split a byte list into 64-byte chunks (fuel-driven). -/
def chunks64Aux : Nat → List Nat → List (List Nat)
  | 0, _ => []
  | _, [] => []
  | fuel + 1, l => l.take 64 :: chunks64Aux fuel (l.drop 64)

/-- Split a byte list into 64-byte chunks. -/
def chunks64 (l : List Nat) : List (List Nat) := chunks64Aux l.length l

/-- Big-endian 8-byte encoding of a natural number. -/
def bigEndian8 (n : Nat) : List Nat :=
  [(n >>> 56) % 256, (n >>> 48) % 256, (n >>> 40) % 256, (n >>> 32) % 256,
   (n >>> 24) % 256, (n >>> 16) % 256, (n >>> 8) % 256, n % 256]

/-- SHA-256 padding: append `0x80`, zeros to 56 mod 64, and the bit length. -/
def sha256Pad (msg : List Nat) : List Nat :=
  let padZeros := (119 - msg.length % 64) % 64
  msg ++ 128 :: (List.replicate padZeros 0 ++ bigEndian8 (8 * msg.length))

/-- Lowercase hex digit. -/
def lowHexDigit (n : Nat) : Char :=
  if n < 10 then Char.ofNat ('0'.toNat + n) else Char.ofNat ('a'.toNat + n - 10)

/-- Lowercase hex rendering of a 32-bit word. -/
def hexWord32 (n : Nat) : List Char :=
  [lowHexDigit ((n >>> 28) % 16), lowHexDigit ((n >>> 24) % 16),
   lowHexDigit ((n >>> 20) % 16), lowHexDigit ((n >>> 16) % 16),
   lowHexDigit ((n >>> 12) % 16), lowHexDigit ((n >>> 8) % 16),
   lowHexDigit ((n >>> 4) % 16), lowHexDigit (n % 16)]

/-- `hashlib.sha256(bytes).hexdigest()`. -/
def sha256Hex (msg : List Nat) : String :=
  ⟨((chunks64 (sha256Pad msg)).foldl sha256Compress shaH0).flatMap hexWord32⟩

/-- `s.encode('utf-8')`. -/
def utf8Encode (s : String) : List Nat := s.data.flatMap utf8Bytes

/-- `url_hash` from `app/research/dedup.py`: SHA-256 hex digest of the
UTF-8 encoding of the normalized URL. -/
def url_hash (u : UrlParts) : String := sha256Hex (utf8Encode (normalize_url u))


/-! ## `app/research/scoring.py`: heuristic scoring -/

/-- `SOURCE_WEIGHTS` from `app/research/scoring.py` (source-type weights, 0-1). -/
def SOURCE_WEIGHTS : List (String × ℚ) :=
  [("RSS Feed", 1.0), ("News Site", 0.9), ("News", 0.9), ("Keyword Search", 0.8),
   ("YouTube Keywords", 0.75), ("Competitor", 0.7), ("Data", 0.85), ("House Content", 0.3)]

/-- The stop-word set filtered by `_extract_terms`. -/
def stop_words : List String :=
  ["the", "and", "for", "are", "but", "not", "you", "all", "can",
   "her", "was", "one", "our", "out", "has", "have", "been", "from",
   "with", "they", "this", "that", "will", "each", "which", "their",
   "about", "would", "there", "these", "other", "into", "more", "some"]

/-- ASCII letter test (`[a-zA-Z]`). -/
def isAsciiAlpha (c : Char) : Bool :=
  ('a' ≤ c ∧ c ≤ 'z') ∨ ('A' ≤ c ∧ c ≤ 'Z')

/-- Maximal alphabetic runs of a character list (`re.findall(r'[a-zA-Z]{3,}', t)`
returns each maximal run; the length-3 minimum is filtered by the caller). -/
def alphaRunsAux : List Char → List Char → List (List Char)
  | cur, [] => if cur = [] then [] else [cur.reverse]
  | cur, c :: rest =>
    if isAsciiAlpha c then alphaRunsAux (c :: cur) rest
    else if cur = [] then alphaRunsAux [] rest
    else cur.reverse :: alphaRunsAux [] rest

/-- `_extract_terms` from `app/research/scoring.py`: words of at least three
letters from the lowercased text, with stop words removed. -/
def extract_terms (text : String) : List String :=
  if text = "" then []
  else
    let words := ((alphaRunsAux [] (lowerStr text).data).filter
      (fun w => 3 ≤ w.length)).map (fun l : List Char => (⟨l⟩ : String))
    words.filter (fun w => !(stop_words.contains w))

/-- `compute_keyword_score` from `app/research/scoring.py`. -/
def compute_keyword_score (title snippet : Option String)
    (industry_description source_keywords : String) : ℚ :=
  let terms := extract_terms industry_description ++ extract_terms source_keywords
  if terms = [] then 50.0
  else
    let unique_terms := terms.dedup
    let candidate_text := lowerStr ((title.getD "") ++ " " ++ (snippet.getD ""))
    let nMatches := (unique_terms.filter (fun term => pyIn term candidate_text)).length
    min ((nMatches : ℚ) / (unique_terms.length : ℚ) * 100) 100.0

/-- `compute_recency_score` from `app/research/scoring.py`.  `datetime`s are
rational timestamps in seconds and the wall clock is the explicit `now`
(timezone-aware dates have their `tzinfo` dropped by the code; timestamps here
are naive). -/
def compute_recency_score (now : ℚ) (published_date : Option ℚ) : ℚ :=
  match published_date with
  | none => 40.0
  | some pd =>
    let days := (now - pd) / 86400
    if days < 1 then 100.0
    else if days < 2 then 85.0
    else if days < 4 then 70.0
    else if days < 8 then 50.0
    else if days < 15 then 30.0
    else if days < 29 then 15.0
    else 5.0

/-- The same step ladder as a function of the age in days; used to state
properties of `compute_recency_score`. -/
def recencyOfAge (days : ℚ) : ℚ :=
  if days < 1 then 100.0
  else if days < 2 then 85.0
  else if days < 4 then 70.0
  else if days < 8 then 50.0
  else if days < 15 then 30.0
  else if days < 29 then 15.0
  else 5.0

/-- `get_source_weight` from `app/research/scoring.py` (default 0.5). -/
def get_source_weight (source_type : String) : ℚ :=
  (SOURCE_WEIGHTS.lookup source_type).getD 0.5

/-- The dict returned by `score_candidate`. -/
structure Scores where
  keyword_score : ℚ
  recency_score : ℚ
  source_weight : ℚ
  relevance_score : ℚ

/-- `score_candidate` from `app/research/scoring.py`: all sub-scores plus the
composite, each rounded to two decimals.  `if published_date:` is the
non-`None` test (`datetime` objects are always truthy). -/
def score_candidate (now : ℚ) (title snippet : Option String) (published_date : Option ℚ)
    (source_type industry_description source_keywords : String) : Scores :=
  let kw_score := compute_keyword_score title snippet industry_description source_keywords
  let rec_score := compute_recency_score now published_date
  let sw := get_source_weight source_type
  let relevance :=
    if published_date.isSome then
      kw_score * 0.50 + rec_score * 0.30 + sw * 100 * 0.20
    else
      kw_score * 0.714 + sw * 100 * 0.286
  { keyword_score := round2 kw_score, recency_score := round2 rec_score,
    source_weight := round2 sw, relevance_score := round2 relevance }


/-! ## `app/research/triage.py`: LLM triage

The network-facing parts (the `anthropic` client, the multi-turn tool loop,
`time.sleep`) are abstracted into a `BatchOutcome` describing how each
batch's LLM exchange ended; the repository's handling of that outcome —
response text assembly, markdown-fence stripping, JSON decoding with the
bracket-slice retry, index-keyed verdict mapping, and every fallback — is
translated from the source.  `json.loads` is modelled by the `jParseVal`
reader below and `dateutil.parser.parse` by an explicit `parseDate`
function.
-/

/-- JSON values (the results of `json.loads`). -/
inductive JVal where
  | null : JVal
  | bool (b : Bool) : JVal
  | num (q : ℚ) : JVal
  | str (s : String) : JVal
  | arr (xs : List JVal) : JVal
  | obj (kvs : List (String × JVal)) : JVal

/-- Python whitespace (`str.strip` / `\s`). -/
def isPyWs (c : Char) : Bool :=
  c = ' ' ∨ c = '\t' ∨ c = '\n' ∨ c = '\r' ∨ c = '\x0b' ∨ c = '\x0c'

/-- Python `str.strip()`. -/
def pyStrip (s : String) : String :=
  ⟨((s.data.dropWhile isPyWs).reverse.dropWhile isPyWs).reverse⟩

/-- Skip JSON whitespace. -/
def jSkipWs : List Char → List Char
  | [] => []
  | c :: rest =>
    if c = ' ' ∨ c = '\t' ∨ c = '\n' ∨ c = '\r' then jSkipWs rest else c :: rest

/-- JSON string body after the opening quote: content and remaining input. -/
def jParseStringBody : List Char → Option (List Char × List Char)
  | [] => none
  | '"' :: rest => some ([], rest)
  | '\\' :: e :: rest =>
    match e with
    | '"' => (jParseStringBody rest).map (fun p => ('"' :: p.1, p.2))
    | '\\' => (jParseStringBody rest).map (fun p => ('\\' :: p.1, p.2))
    | '/' => (jParseStringBody rest).map (fun p => ('/' :: p.1, p.2))
    | 'n' => (jParseStringBody rest).map (fun p => ('\n' :: p.1, p.2))
    | 't' => (jParseStringBody rest).map (fun p => ('\t' :: p.1, p.2))
    | 'r' => (jParseStringBody rest).map (fun p => ('\r' :: p.1, p.2))
    | 'b' => (jParseStringBody rest).map (fun p => ('\x08' :: p.1, p.2))
    | 'f' => (jParseStringBody rest).map (fun p => ('\x0c' :: p.1, p.2))
    | 'u' =>
      match rest with
      | a :: b :: c :: d :: rest2 =>
        match hexDigitVal a, hexDigitVal b, hexDigitVal c, hexDigitVal d with
        | some x1, some x2, some x3, some x4 =>
          (jParseStringBody rest2).map
            (fun p => (Char.ofNat (((x1 * 16 + x2) * 16 + x3) * 16 + x4) :: p.1, p.2))
        | _, _, _, _ => none
      | _ => none
    | _ => none
  | c :: rest => (jParseStringBody rest).map (fun p => (c :: p.1, p.2))

/-- Digits to a natural number. -/
def jDigitsToNat (l : List Char) : Nat :=
  l.foldl (fun acc c => acc * 10 + (c.toNat - '0'.toNat)) 0

/-- JSON number (sign, integer part, optional fraction and exponent). -/
def jParseNumber (l : List Char) : Option (ℚ × List Char) :=
  let sl := match l with
    | '-' :: r => ((-1 : ℚ), r)
    | _ => ((1 : ℚ), l)
  match sl.2.span (fun c => c.isDigit) with
  | ([], _) => none
  | (ds, l2) =>
    let intPart : ℚ := (jDigitsToNat ds : ℚ)
    let fl : ℚ × List Char := match l2 with
      | '.' :: r =>
        match r.span (fun c => c.isDigit) with
        | ([], _) => (0, l2)
        | (fs, r2) => ((jDigitsToNat fs : ℚ) / ((10 : ℚ) ^ fs.length), r2)
      | _ => (0, l2)
    let el : ℚ × List Char := match fl.2 with
      | 'e' :: r => jParseExp r
      | 'E' :: r => jParseExp r
      | _ => (1, fl.2)
    some (sl.1 * (intPart + fl.1) * el.1, el.2)
where
  /-- Exponent part: sign and digits, as a power of ten (1 when absent). -/
  jParseExp (r : List Char) : ℚ × List Char :=
    let sr : (ℤ × List Char) := match r with
      | '+' :: r2 => (1, r2)
      | '-' :: r2 => (-1, r2)
      | _ => (1, r)
    match sr.2.span (fun c => c.isDigit) with
    | ([], _) => (1, r)
    | (es, r2) => ((10 : ℚ) ^ (sr.1 * (jDigitsToNat es : ℤ)), r2)

/-- Recursive-descent JSON value reader, fuel-driven and single-function:
after an array or object element and its comma, the remaining members are
parsed by re-entering on a synthesized opening bracket and prepending. -/
def jParseVal : Nat → List Char → Option (JVal × List Char)
  | 0, _ => none
  | fuel + 1, l =>
    match jSkipWs l with
    | 'n' :: 'u' :: 'l' :: 'l' :: rest => some (.null, rest)
    | 't' :: 'r' :: 'u' :: 'e' :: rest => some (.bool true, rest)
    | 'f' :: 'a' :: 'l' :: 's' :: 'e' :: rest => some (.bool false, rest)
    | '"' :: rest => (jParseStringBody rest).map (fun p => (.str ⟨p.1⟩, p.2))
    | '[' :: rest =>
      (match jSkipWs rest with
       | ']' :: rest2 => some (.arr [], rest2)
       | _ =>
         match jParseVal fuel rest with
         | none => none
         | some (v, rest2) =>
           match jSkipWs rest2 with
           | ',' :: rest3 =>
             (match jParseVal fuel ('[' :: rest3) with
              | some (.arr xs, rest4) => some (.arr (v :: xs), rest4)
              | _ => none)
           | ']' :: rest3 => some (.arr [v], rest3)
           | _ => none)
    | '{' :: rest =>
      (match jSkipWs rest with
       | '}' :: rest2 => some (.obj [], rest2)
       | '"' :: rest2 =>
         (match jParseStringBody rest2 with
          | none => none
          | some (key, rest3) =>
            match jSkipWs rest3 with
            | ':' :: rest4 =>
              (match jParseVal fuel rest4 with
               | none => none
               | some (v, rest5) =>
                 match jSkipWs rest5 with
                 | ',' :: rest6 =>
                   (match jParseVal fuel ('{' :: rest6) with
                    | some (.obj kvs, rest7) => some (.obj ((⟨key⟩, v) :: kvs), rest7)
                    | _ => none)
                 | '}' :: rest6 => some (.obj [(⟨key⟩, v)], rest6)
                 | _ => none)
            | _ => none)
       | _ => none)
    | other => (jParseNumber other).map (fun p => (.num p.1, p.2))

/-- `json.loads`: a full-input JSON parse, `none` on `JSONDecodeError`. -/
def jLoads (s : String) : Option JVal :=
  match jParseVal (2 * s.data.length + 8) s.data with
  | some (v, rest) => if jSkipWs rest = [] then some v else none
  | none => none


/-- Metadata bag: Python's insertion-ordered, string-keyed dict with loosely
typed values. -/
abbrev Metadata := List (String × JVal)

/-- Dict membership `k in d`. -/
def mdHas (d : Metadata) (k : String) : Bool := d.any (fun p => p.1 == k)

/-- Dict read `d.get(k)`. -/
def mdGet (d : Metadata) (k : String) : Option JVal := d.lookup k

/-- Dict write `d[k] = v`: overwrite in place, else append (insertion order). -/
def mdSet (d : Metadata) (k : String) (v : JVal) : Metadata :=
  if mdHas d k then d.map (fun p => if p.1 == k then (k, v) else p)
  else d ++ [(k, v)]

/-- `d.setdefault(k, v)`. -/
def mdSetdefault (d : Metadata) (k : String) (v : JVal) : Metadata :=
  if mdHas d k then d else d ++ [(k, v)]

/-- `DiscoveredItem` from `app/research/scrapers.py` (ephemeral scraper
output; `published_date` is a rational timestamp). -/
structure DiscoveredItem where
  url : String
  title : Option String := none
  snippet : Option String := none
  author : Option String := none
  published_date : Option ℚ := none
  metadata : Metadata := []

/-- One content block of an LLM API response. -/
inductive ContentBlock where
  | text (s : String) : ContentBlock
  | toolUse (id name inputUrl : String) : ContentBlock

/-- An LLM API response: its stop reason and content blocks. -/
structure LLMResponse where
  stop_reason : String
  content : List ContentBlock

/-- The text assembled by `_parse_response`: every block that has a
non-empty `text` attribute, joined with newlines. -/
def responseText (r : LLMResponse) : String :=
  joinSep "\n" (r.content.filterMap (fun b =>
    match b with
    | .text s => if s = "" then none else some s
    | .toolUse _ _ _ => none))

/-- Leftmost run of `.*?` up to the next closing triple backtick, if any. -/
def findCloseTicks : List Char → Option (List Char)
  | [] => none
  | c :: rest =>
    if isPrefixList "\x60\x60\x60".data (c :: rest) then some []
    else (findCloseTicks rest).map (fun cs => c :: cs)

/-- After an opening fence: optionally consume `json`, then the greedy
whitespace run (which swallows the optional newline). -/
def dropFencePrefix (l : List Char) : List Char :=
  let l1 := if isPrefixList "json".data l then l.drop 4 else l
  l1.dropWhile isPyWs

/-- The markdown-fence search of `_parse_response`: leftmost opening triple
backtick whose prefix-stripped remainder still contains a closing triple
backtick; returns the captured group. -/
def findFenceMatch : List Char → Option (List Char)
  | [] => none
  | c :: rest =>
    if isPrefixList "\x60\x60\x60".data (c :: rest) then
      match findCloseTicks (dropFencePrefix ((c :: rest).drop 3)) with
      | some captured => some captured
      | none => findFenceMatch rest
    else findFenceMatch rest

/-- The greedy bracket slice `\[.*\]` (DOTALL): from the first opening
bracket through the last closing bracket after it, if any. -/
def bracketSlice (l : List Char) : Option (List Char) :=
  match l.dropWhile (fun c => !(c = '[')) with
  | [] => none
  | fromBr =>
    match (fromBr.reverse.dropWhile (fun c => !(c = ']'))).reverse with
    | [] => none
    | upTo => some upTo

/-- One triage verdict record (`{url, verdict, reasoning, published_date}`). -/
structure VerdictRec where
  url : String
  verdict : String
  reasoning : JVal
  published_date : Option ℚ

/-- Last value stored under a key of a decoded JSON object (later duplicate
keys win, as in a Python dict built from a JSON object). -/
def jGet (kvs : List (String × JVal)) (key : String) : Option JVal :=
  kvs.reverse.lookup key

/-- Python `==` between a JSON-derived dict key and the int `i` (numbers
compare by value; `True`/`False` equal `1`/`0`). -/
def pyKeyEqNat (k : JVal) (i : Nat) : Bool :=
  match k with
  | .num q => q = (i : ℚ)
  | .bool b => (if b then (1 : ℚ) else 0) = (i : ℚ)
  | _ => false

/-- The `verdict_map` built from the decoded array, queried at index `i`:
the last array element that is an object carrying an `index` key equal to
`i` (dict assignment overwrites). -/
def verdictMapGet (vs : List JVal) (i : Nat) : Option (List (String × JVal)) :=
  vs.foldl (fun acc v =>
    match v with
    | .obj kvs =>
      match jGet kvs "index" with
      | some k => if pyKeyEqNat k i then some kvs else acc
      | none => acc
    | _ => acc) none

/-- One row of the per-item mapping loop of `_parse_response`: look the
item's index up in the verdict map; a missing entry, or a missing or invalid
`verdict` field, yields `maybe`; `published_date` strings are parsed via
`parseDate` (`dateutil`), failures yielding `None`. -/
def verdictRow (parseDate : String → Option ℚ) (xs : List JVal) (i : Nat)
    (item : DiscoveredItem) : VerdictRec :=
  match verdictMapGet xs i with
  | none =>
    { url := item.url, verdict := "maybe",
      reasoning := .str "no reasoning provided", published_date := none }
  | some kvs =>
    let verdict := match jGet kvs "verdict" with
      | some (.str s) =>
        if ["relevant_news", "maybe", "not_news"].contains s then s else "maybe"
      | _ => "maybe"
    let reasoning := (jGet kvs "reasoning").getD (.str "no reasoning provided")
    let published_date := match jGet kvs "published_date" with
      | some (.str d) => if d = "" then none else parseDate d
      | _ => none
    { url := item.url, verdict := verdict, reasoning := reasoning,
      published_date := published_date }

/-- `for i, item in enumerate(items)` over `verdictRow`. -/
def verdictRows (parseDate : String → Option ℚ) (xs : List JVal) :
    Nat → List DiscoveredItem → List VerdictRec
  | _, [] => []
  | i, item :: rest =>
    verdictRow parseDate xs i item :: verdictRows parseDate xs (i + 1) rest

/-- The mapping stage of `_parse_response` once a JSON value has been
decoded: one verdict row per item in input order; a decoded value that is
not an array yields the fallback. -/
def verdictsFromJson (parseDate : String → Option ℚ) (v : JVal)
    (items : List DiscoveredItem) (fallback : List VerdictRec) : List VerdictRec :=
  match v with
  | .arr xs => verdictRows parseDate xs 0 items
  | _ => fallback

/-- The text `_parse_response` hands to the JSON decoder: the stripped
response text, replaced by the stripped fence capture when a markdown
fence is present and matched. -/
def decodeText (r : LLMResponse) : String :=
  if pyIn "\x60\x60\x60" (pyStrip (responseText r)) then
    match findFenceMatch (pyStrip (responseText r)).data with
    | some captured => pyStrip (String.mk captured)
    | none => pyStrip (responseText r)
  else pyStrip (responseText r)

/-- `_parse_response` from `app/research/triage.py`: assemble the text
blocks, strip markdown fencing when present, decode the JSON array (with
the bracket-slice retry on a decode error), and map verdicts back to the
items; empty or undecodable text falls back to `maybe` for every item. -/
def parse_response (parseDate : String → Option ℚ) (r : LLMResponse)
    (items : List DiscoveredItem) : List VerdictRec :=
  let fallback := items.map (fun item =>
    { url := item.url, verdict := "maybe", reasoning := .str "parse fallback",
      published_date := none })
  let text := pyStrip (responseText r)
  if text = "" then fallback
  else
    let text := if pyIn "\x60\x60\x60" text then
        match findFenceMatch text.data with
        | some captured => pyStrip ⟨captured⟩
        | none => text
      else text
    if text = "" then fallback
    else
      match jLoads text with
      | some v => verdictsFromJson parseDate v items fallback
      | none =>
        match bracketSlice text.data with
        | some sub =>
          match jLoads ⟨sub⟩ with
          | some v => verdictsFromJson parseDate v items fallback
          | none => fallback
        | none => fallback

/-- Outcome of one batch's LLM exchange in `_triage_batch`, as seen by the
pure result handling: the bounded tool-use loop (at most `fetch_budget + 2`
turns plus one forced no-tools call) ends with a final response; or the
request raises `RateLimitError` and the single delayed retry yields a
response or fails; or some other exception is raised. -/
inductive BatchOutcome where
  | finalResponse (r : LLMResponse) : BatchOutcome
  | rateLimitedRetryOk (r : LLMResponse) : BatchOutcome
  | rateLimitedRetryFail : BatchOutcome
  | exn : BatchOutcome

/-- `_triage_batch` from `app/research/triage.py`: the parsed response on a
completed exchange, the `maybe` fallback on any failure; never raises. -/
def triage_batch (parseDate : String → Option ℚ) (o : BatchOutcome)
    (items : List DiscoveredItem) : List VerdictRec :=
  let fallback := items.map (fun item =>
    { url := item.url, verdict := "maybe", reasoning := .str "triage fallback",
      published_date := none })
  match o with
  | .finalResponse r => parse_response parseDate r items
  | .rateLimitedRetryOk r => parse_response parseDate r items
  | .rateLimitedRetryFail => fallback
  | .exn => fallback

/-- `range(0, n, bs)` batching of a list (fuel-driven). -/
def chunkListAux (bs : Nat) : Nat → List α → List (List α)
  | 0, _ => []
  | _, [] => []
  | fuel + 1, l => l.take bs :: chunkListAux bs fuel (l.drop bs)

/-- Split a list into batches of `bs`. -/
def chunkList (bs : Nat) (l : List α) : List (List α) := chunkListAux bs l.length l

/-- Successive batches classified with consecutive outcome indices. -/
def triageBatches (parseDate : String → Option ℚ) (outcomes : Nat → BatchOutcome) :
    Nat → List (List DiscoveredItem) → List VerdictRec
  | _, [] => []
  | bi, chunk :: rest =>
    triage_batch parseDate (outcomes bi) chunk
      ++ triageBatches parseDate outcomes (bi + 1) rest

/-- `triage_items` from `app/research/triage.py`: empty input yields `[]`; a
missing API key yields `maybe` (\"triage skipped\") for every item; otherwise
the items are classified in batches of `batch_size` and the per-batch
results concatenated in input order.  The parallel `source_types` list only
feeds the prompt text and does not affect the structure of the result. -/
def triage_items (parseDate : String → Option ℚ) (apiKey : Option String)
    (batch_size : Nat) (outcomes : Nat → BatchOutcome)
    (items : List DiscoveredItem) : List VerdictRec :=
  if items.isEmpty then []
  else
    match apiKey with
    | none => items.map (fun item =>
        { url := item.url, verdict := "maybe",
          reasoning := .str "triage skipped (no API key)", published_date := none })
    | some _ => triageBatches parseDate outcomes 0 (chunkList batch_size items)


/-! ## `app/research/enrichment.py`: enrichment dispatch

External effects — the YouTube transcript service (with the module-level
`_youtube_blocked` circuit breaker made explicit state), the Firecrawl web
path of `_enrich_web_article` (whose internal URL filtering, rate limiting
and date extraction no claim depends on), `dateutil` parsing, and the
wall-clock ISO timestamp — are supplied by an `EnrichEnv` record.  The
dispatch of `enrich_item` and all metadata bookkeeping are translated from
the source; `enrich_item` always returns a metadata bag and never raises
(its `try/except` converts internal errors into `enrichment_failed`
markers, a behaviour the web-path environment function also respects by
returning a bag). -/

/-- Python truthiness of a metadata value. -/
def jTruthy : JVal → Bool
  | .null => false
  | .bool b => b
  | .num q => !(q = 0)
  | .str s => !(s = "")
  | .arr xs => !xs.isEmpty
  | .obj kvs => !kvs.isEmpty

/-- Truthiness of `d.get(k)` (an absent key is falsy). -/
def mdTruthy (d : Metadata) (k : String) : Bool :=
  match mdGet d k with
  | some v => jTruthy v
  | none => false

/-- The external collaborators of `app/research/enrichment.py`. -/
structure EnrichEnv where
  /-- `_extract_youtube_video_id` (URL-shape parsing). -/
  ytVideoId : String → Option String
  /-- The transcript fetch: joined snippet text, or the raised error string. -/
  ytTranscript : String → Except String String
  /-- The Firecrawl web path of `_enrich_web_article` applied to the bag. -/
  webEnrich : String → Metadata → Option String → Metadata
  /-- `dateutil.parser.parse`, `None` on failure. -/
  parseDate : String → Option ℚ
  /-- `_extract_date_from_url` (URL date-pattern extraction). -/
  extractDateFromUrl : String → Option ℚ
  /-- `datetime.now(timezone.utc).isoformat()`. -/
  nowIso : String

/-- Module-level mutable state of `app/research/enrichment.py`. -/
structure EnrichState where
  youtubeBlocked : Bool

/-- `_promote_rss_content`. -/
def promote_rss_content (nowIso : String) (md : Metadata) : Metadata :=
  let content := match mdGet md "rss_full_content" with
    | some (.str s) => s
    | _ => ""
  let md := mdSet md "full_content" (.str content)
  let md := mdSet md "content_format" (.str "rss_html")
  let md := mdSet md "content_source" (.str "rss_feed")
  let md := mdSet md "content_length" (.num content.length)
  let md := mdSet md "enriched_at" (.str nowIso)
  let md := mdSet md "enrichment_failed" (.bool false)
  mdSet md "enrichment_error" .null

/-- `_enrich_youtube_video`, with the circuit breaker threaded explicitly:
once blocked, every later fetch short-circuits to failure; an error whose
lowercased text contains `blocking` or `ip` trips the breaker. -/
def enrich_youtube_video (env : EnrichEnv) (st : EnrichState) (url : String)
    (md : Metadata) : Metadata × EnrichState :=
  if st.youtubeBlocked then
    (mdSet (mdSet md "enrichment_failed" (.bool true)) "enrichment_error"
      (.str "YouTube transcript skipped (IP blocked)"), st)
  else
    match env.ytVideoId url with
    | none =>
      (mdSet (mdSet md "enrichment_failed" (.bool true)) "enrichment_error"
        (.str "Could not extract video ID from URL"), st)
    | some vid =>
      match env.ytTranscript vid with
      | .ok full_text =>
        let md := mdSet md "full_content" (.str full_text)
        let md := mdSet md "content_format" (.str "transcript")
        let md := mdSet md "content_source" (.str "youtube_transcript")
        let md := mdSet md "content_length" (.num full_text.length)
        let md := mdSet md "enriched_at" (.str env.nowIso)
        let md := mdSet md "enrichment_failed" (.bool false)
        (mdSet md "enrichment_error" .null, st)
      | .error error_str =>
        let md := mdSet md "enrichment_failed" (.bool true)
        let md := mdSet md "enrichment_error" (.str error_str)
        ( md,
          { youtubeBlocked := st.youtubeBlocked
              || pyIn "blocking" (lowerStr error_str)
              || pyIn "ip" (lowerStr error_str) } )

/-- `enrich_item` from `app/research/enrichment.py`: the per-source-type
dispatch — `Data` items already enriched, feed-embedded content promoted
for free, video transcripts, everything else Firecrawl. -/
def enrich_item (env : EnrichEnv) (st : EnrichState) (url : String) (md : Metadata)
    (source_type : String) (source_url : Option String) : Metadata × EnrichState :=
  if source_type = "Data" then
    (mdSetdefault (mdSetdefault md "content_format" (.str "claude_summary"))
      "content_source" (.str "data_scraper"), st)
  else if mdHas md "rss_full_content" then
    (promote_rss_content env.nowIso md, st)
  else if source_type = "YouTube Keywords" then
    enrich_youtube_video env st url md
  else
    (env.webEnrich url md source_url, st)

/-- Whether an `enrich_item` call for this bag and source type takes the
paid Firecrawl path (not `Data`, no feed-embedded content, not video). -/
def firecrawlPath (md : Metadata) (source_type : String) : Bool :=
  !(source_type == "Data") && !(mdHas md "rss_full_content")
    && !(source_type == "YouTube Keywords")

/-! ## `app/tasks.py`: the phase-3 score/enrich/persist loop of
`research_publication_sources` -/

/-- `TRIAGE_MULTIPLIERS` from `app/research/triage.py`. -/
def TRIAGE_MULTIPLIERS : List (String × ℚ) :=
  [("relevant_news", 1.15), ("maybe", 1.0), ("not_news", 0.0)]

/-- `TRIAGE_MULTIPLIERS.get(verdict, 1.0)`. -/
def triageMultiplier (verdict : String) : ℚ :=
  (TRIAGE_MULTIPLIERS.lookup verdict).getD 1.0

/-- `app/tasks.py` lines 503-506: after heuristic scoring, the triage
multiplier is applied to the composite
(`scores['relevance_score'] = round(scores['relevance_score'] * multiplier, 2)`),
only when a verdict is present. -/
def applyTriageMultiplier (scores : Scores) (verdict : Option String) : Scores :=
  match verdict with
  | none => scores
  | some v =>
    { scores with relevance_score := round2 (scores.relevance_score * triageMultiplier v) }

/-- `app/tasks.py` lines 549-562: once a missing publish date is backfilled,
the recency score is recomputed and the composite is rebuilt from the stored
(rounded) keyword and source-weight sub-scores with the fresh recency, the
triage multiplier re-applied to that fresh base — never to the stored,
already-multiplied relevance. -/
def rescoreWithDate (scores : Scores) (verdict : Option String) (new_recency : ℚ) : Scores :=
  let base0 := round2 (scores.keyword_score * 0.50 + new_recency * 0.30
    + scores.source_weight * 100 * 0.20)
  let base := match verdict with
    | some v => round2 (base0 * triageMultiplier v)
    | none => base0
  { scores with recency_score := round2 new_recency, relevance_score := base }

/-- The fields of a `NewsSource` row that phase 3 reads. -/
structure NewsSourceLite where
  id : Nat
  source_type : String
  keywords : Option String
  url : Option String

/-- The configuration the orchestrator reads for phase 3. -/
structure RunConfig where
  enrichment_min_score : ℚ
  enrichment_budget : ℤ
  industry_description : Option String

/-- The run stats counters phase 3 and the commit phase touch
(`free_enrichments` is the internal `_free_enrichments`, popped before
reporting). -/
structure RunStats where
  new_candidates : Nat := 0
  enriched : Nat := 0
  enrichment_skipped : Nat := 0
  enrichment_failed : Nat := 0
  enrichment_budget_exhausted : Nat := 0
  free_enrichments : Nat := 0
  errors : Nat := 0

/-- Modelled from the spec: the persisted Candidate record.  The
`CandidateArticle` model class itself is not under `src/` (only its callers
are); its fields follow the spec's Candidate data model, and a constructor
argument not passed by the orchestrator is absent (`none`). -/
structure CandidateArticle where
  publication_id : Nat
  news_source_id : Nat
  url : String
  url_hash : String
  title : Option String := none
  snippet : Option String := none
  author : Option String := none
  published_date : Option ℚ := none
  relevance_score : Option ℚ := none
  keyword_score : Option ℚ := none
  recency_score : Option ℚ := none
  source_weight : Option ℚ := none
  status : String
  extra_metadata : Option Metadata := none

/-- The result of processing one pending item in phase 3: the candidate
added to the session, the updated stats and breaker state, and (as
instrumentation) whether `enrich_item` was invoked for the item. -/
structure ProcessResult where
  candidate : CandidateArticle
  stats : RunStats
  enrichState : EnrichState
  enrichCalled : Bool

/-- The date-backfill block of phase 3 (`app/tasks.py` lines 535-564): when
the item has no publish date, try the triage-extracted date, then the
enrichment-extracted date (parsed via `dateutil`), then the URL pattern;
when one is found, recompute recency and rebuild the composite via
`rescoreWithDate`.  Returns the final publish date and scores. -/
def backfillDate (env : EnrichEnv) (now : ℚ) (verdictInfo : Option VerdictRec)
    (enriched_metadata : Metadata) (item_url : String) (item_pd : Option ℚ)
    (scores1 : Scores) (verdict : Option String) : Option ℚ × Scores :=
  match item_pd with
  | some d => (some d, scores1)
  | none =>
    let d1 : Option ℚ := match verdictInfo with
      | some vi => vi.published_date
      | none => none
    let d2 : Option ℚ := match d1 with
      | some d => some d
      | none =>
        match mdGet enriched_metadata "extracted_published_date" with
        | some (.str s) => if s = "" then none else env.parseDate s
        | _ => none
    let d3 : Option ℚ := match d2 with
      | some d => some d
      | none => env.extractDateFromUrl item_url
    match d3 with
    | none => (none, scores1)
    | some d =>
      (some d, rescoreWithDate scores1 verdict (compute_recency_score now (some d)))

/-- One iteration of the phase-3 loop of `research_publication_sources`
(`app/tasks.py`): not-news items are persisted immediately as zero-scored
rejected candidates with the triage verdict in their metadata, skipping
scoring and enrichment; every other item is scored, the triage multiplier
applied, enriched when above the threshold subject to the Firecrawl budget
(`firecrawl_calls = enriched + enrichment_failed - _free_enrichments`), and
a still-missing publish date is backfilled from the triage date, the
enrichment-extracted date, or the URL pattern, rescoring when found. -/
def processItem (env : EnrichEnv) (cfg : RunConfig) (publication_id : Nat) (now : ℚ)
    (st : EnrichState) (stats : RunStats) (item : DiscoveredItem)
    (source : NewsSourceLite) (hash_val : String)
    (verdictInfo : Option VerdictRec) : ProcessResult :=
  let verdict : Option String := verdictInfo.map (fun vi => vi.verdict)
  let reasoning : JVal := (verdictInfo.map (fun vi => vi.reasoning)).getD (.str "")
  if verdict = some "not_news" then
    let reject_metadata := mdSet (mdSet item.metadata "triage_verdict" (.str "not_news"))
      "triage_reasoning" reasoning
    { candidate :=
        { publication_id := publication_id, news_source_id := source.id,
          url := item.url, url_hash := hash_val, title := item.title,
          snippet := item.snippet, author := item.author,
          published_date := item.published_date,
          relevance_score := some 0, keyword_score := some 0,
          recency_score := some 0, source_weight := some 0,
          status := "rejected", extra_metadata := some reject_metadata },
      stats := { stats with new_candidates := stats.new_candidates + 1 },
      enrichState := st, enrichCalled := false }
  else
    let scores0 := score_candidate now item.title item.snippet item.published_date
      source.source_type (cfg.industry_description.getD "") (source.keywords.getD "")
    let scores1 := applyTriageMultiplier scores0 verdict
    let wants_enrichment := (cfg.enrichment_min_score ≤ scores1.relevance_score)
      && !(source.source_type == "Data")
    let is_free_enrichment := mdHas item.metadata "rss_full_content"
      || (source.source_type == "YouTube Keywords")
    let firecrawl_calls : ℤ := (stats.enriched : ℤ) + (stats.enrichment_failed : ℤ)
      - (stats.free_enrichments : ℤ)
    let enrichStep : Metadata × EnrichState × RunStats × Bool :=
      if wants_enrichment && (is_free_enrichment || firecrawl_calls < cfg.enrichment_budget) then
        let r := enrich_item env st item.url item.metadata source.source_type source.url
        if mdTruthy r.1 "enrichment_failed" then
          (r.1, r.2, { stats with enrichment_failed := stats.enrichment_failed + 1 }, true)
        else
          let stats1 := { stats with enriched := stats.enriched + 1 }
          let stats2 := if is_free_enrichment then
              { stats1 with free_enrichments := stats1.free_enrichments + 1 }
            else stats1
          (r.1, r.2, stats2, true)
      else if wants_enrichment then
        (item.metadata, st,
          { stats with
              enrichment_budget_exhausted := stats.enrichment_budget_exhausted + 1,
              enrichment_skipped := stats.enrichment_skipped + 1 }, false)
      else
        (item.metadata, st,
          { stats with enrichment_skipped := stats.enrichment_skipped + 1 }, false)
    let enriched_metadata := enrichStep.1
    let st2 := enrichStep.2.1
    let stats2 := enrichStep.2.2.1
    let pdScores := backfillDate env now verdictInfo enriched_metadata item.url
      item.published_date scores1 verdict
    let final_metadata := match verdict with
      | some v => mdSet (mdSet enriched_metadata "triage_verdict" (.str v))
          "triage_reasoning" reasoning
      | none => enriched_metadata
    { candidate :=
        { publication_id := publication_id, news_source_id := source.id,
          url := item.url, url_hash := hash_val, title := item.title,
          snippet := item.snippet, author := item.author,
          published_date := pdScores.1,
          relevance_score := some pdScores.2.relevance_score,
          keyword_score := some pdScores.2.keyword_score,
          recency_score := some pdScores.2.recency_score,
          source_weight := some pdScores.2.source_weight,
          status := "new", extra_metadata := some final_metadata },
      stats := { stats2 with new_candidates := stats2.new_candidates + 1 },
      enrichState := st2, enrichCalled := enrichStep.2.2.2 }

/-- The state threaded through the phase-3 loop; `paidCalls` instruments the
number of `enrich_item` invocations that took the Firecrawl path. -/
structure FoldState where
  stats : RunStats
  enrichState : EnrichState
  candidates : List CandidateArticle
  paidCalls : Nat

/-- The phase-3 loop over all pending items. -/
def processItems (env : EnrichEnv) (cfg : RunConfig) (publication_id : Nat) (now : ℚ)
    (verdict_map : String → Option VerdictRec) :
    List (DiscoveredItem × NewsSourceLite × String) → FoldState → FoldState
  | [], fs => fs
  | (item, source, hash_val) :: rest, fs =>
    let r := processItem env cfg publication_id now fs.enrichState fs.stats item source
      hash_val (verdict_map item.url)
    processItems env cfg publication_id now verdict_map rest
      { stats := r.stats, enrichState := r.enrichState,
        candidates := fs.candidates ++ [r.candidate],
        paidCalls := fs.paidCalls
          + (if r.enrichCalled && firecrawlPath item.metadata source.source_type
             then 1 else 0) }

/-! ## `app/tasks.py`: commit discipline -/

/-- The candidate store, abstracted to the rows subject to the uniqueness
constraint on `(publication, urlHash)`. -/
structure DbState where
  rows : List (Nat × String)

/-- `is_duplicate_candidate` from `app/research/dedup.py` against the
abstract store. -/
def is_duplicate_candidate (db : DbState) (hash_val : String)
    (publication_id : Nat) : Bool :=
  db.rows.any (fun r => r.1 == publication_id && r.2 == hash_val)

/-- Whether a list of keys has an internal duplicate. -/
def anyDupKeys : List String → Bool
  | [] => false
  | h :: rest => rest.contains h || anyDupKeys rest

/-- Whether the bulk commit of the pending candidates violates the
uniqueness constraint: some pending hash already stored for this
publication, or two pending candidates share a hash. -/
def bulkCommitViolates (db : DbState) (publication_id : Nat)
    (pending : List (DiscoveredItem × NewsSourceLite × String)) : Bool :=
  (pending.map (fun p => p.2.2)).any
      (fun h => is_duplicate_candidate db h publication_id)
    || anyDupKeys (pending.map (fun p => p.2.2))

/-- The bare candidate built by the one-at-a-time fallback
(`app/tasks.py`): only publication, source, url, urlHash, title, snippet
and status — plus the triage metadata for not-news items. -/
def fallbackCandidate (publication_id : Nat) (item : DiscoveredItem)
    (source : NewsSourceLite) (hash_val : String)
    (vinfo : Option VerdictRec) : CandidateArticle :=
  let verdict := vinfo.map (fun vi => vi.verdict)
  if verdict = some "not_news" then
    { publication_id := publication_id, news_source_id := source.id, url := item.url,
      url_hash := hash_val, title := item.title, snippet := item.snippet,
      status := "rejected",
      extra_metadata := some (mdSet
        (mdSet item.metadata "triage_verdict" (.str "not_news"))
        "triage_reasoning" ((vinfo.map (fun vi => vi.reasoning)).getD (.str ""))) }
  else
    { publication_id := publication_id, news_source_id := source.id, url := item.url,
      url_hash := hash_val, title := item.title, snippet := item.snippet,
      status := "new" }

/-- The one-at-a-time fallback re-persistence: walk the pending items,
skip any whose hash is now a duplicate, insert the rest one row at a time
(each flush making the row visible to later duplicate checks); returns the
final store, the saved candidates and the `saved` counter.  The per-row
`except` clause (row races) is unreachable in this single-writer model.
The run's reported stats are not touched. -/
def fallbackSave (publication_id : Nat)
    (verdict_map : String → Option VerdictRec) :
    DbState → List (DiscoveredItem × NewsSourceLite × String) →
      DbState × List CandidateArticle × Nat
  | db, [] => (db, [], 0)
  | db, (item, source, hash_val) :: rest =>
    if is_duplicate_candidate db hash_val publication_id then
      fallbackSave publication_id verdict_map db rest
    else
      let candidate := fallbackCandidate publication_id item source hash_val
        (verdict_map item.url)
      let r := fallbackSave publication_id verdict_map
        ⟨db.rows ++ [(publication_id, hash_val)]⟩ rest
      (r.1, candidate :: r.2.1, r.2.2 + 1)

/-- The result of the commit phase. -/
structure CommitResult where
  db : DbState
  usedFallback : Bool
  fallbackSaved : Nat
  fallbackCandidates : List CandidateArticle
  stats : RunStats

/-- The commit discipline of `research_publication_sources`: one bulk
commit of all pending candidates; on a uniqueness violation, roll back
(discarding the bulk session) and re-persist one at a time.  Neither path
touches the run's reported stats (`stats['errors']` in particular). -/
def commitPhase (db : DbState) (publication_id : Nat)
    (verdict_map : String → Option VerdictRec)
    (pending : List (DiscoveredItem × NewsSourceLite × String))
    (stats : RunStats) : CommitResult :=
  if bulkCommitViolates db publication_id pending then
    let r := fallbackSave publication_id verdict_map db pending
    { db := r.1, usedFallback := true, fallbackSaved := r.2.2,
      fallbackCandidates := r.2.1, stats := stats }
  else
    { db := ⟨db.rows ++ pending.map (fun p => (publication_id, p.2.2))⟩,
      usedFallback := false, fallbackSaved := 0, fallbackCandidates := [],
      stats := stats }

/-! ## Theorems -/

theorem pyRoundInt_le (x : ℚ) (n : ℤ) (h : x ≤ n) : pyRoundInt x ≤ n := by
  have hfx : (⌊x⌋ : ℚ) ≤ x := Int.floor_le x
  have hfl : ⌊x⌋ ≤ n := by
    have h2 : (⌊x⌋ : ℚ) ≤ (n : ℚ) := le_trans hfx h
    exact_mod_cast h2
  unfold pyRoundInt
  split_ifs with h1 h2 h3
  · exact hfl
  · have hlt : ⌊x⌋ < n := by
      by_contra hcon
      push_neg at hcon
      have heq : ⌊x⌋ = n := le_antisymm hfl hcon
      have hq : (⌊x⌋ : ℚ) = (n : ℚ) := by exact_mod_cast heq
      linarith
    omega
  · exact hfl
  · have hlt : ⌊x⌋ < n := by
      by_contra hcon
      push_neg at hcon
      have heq : ⌊x⌋ = n := le_antisymm hfl hcon
      have hq : (⌊x⌋ : ℚ) = (n : ℚ) := by exact_mod_cast heq
      push_neg at h1
      linarith
    omega

theorem le_pyRoundInt (x : ℚ) (n : ℤ) (h : (n : ℚ) ≤ x) : n ≤ pyRoundInt x := by
  have hfl : n ≤ ⌊x⌋ := Int.le_floor.mpr h
  unfold pyRoundInt
  split_ifs with h1 h2 h3
  · exact hfl
  · omega
  · exact hfl
  · omega

theorem round2_le (x : ℚ) (n : ℤ) (h : x ≤ n) : round2 x ≤ n := by
  unfold round2
  have h1 : x * 100 ≤ ((n * 100 : ℤ) : ℚ) := by push_cast; linarith
  have h2 := pyRoundInt_le (x * 100) (n * 100) h1
  have h3 : ((pyRoundInt (x * 100)) : ℚ) ≤ ((n * 100 : ℤ) : ℚ) := by exact_mod_cast h2
  push_cast at h3
  linarith

theorem le_round2 (x : ℚ) (n : ℤ) (h : (n : ℚ) ≤ x) : (n : ℚ) ≤ round2 x := by
  unfold round2
  have h1 : ((n * 100 : ℤ) : ℚ) ≤ x * 100 := by push_cast; linarith
  have h2 := le_pyRoundInt (x * 100) (n * 100) h1
  have h3 : ((n * 100 : ℤ) : ℚ) ≤ ((pyRoundInt (x * 100)) : ℚ) := by exact_mod_cast h2
  push_cast at h3
  linarith

theorem groupByKeyAux_fuel_eq :
    ∀ (fuel fuel' : Nat) (l : List (String × String)),
      l.length ≤ fuel → l.length ≤ fuel' →
      groupByKeyAux fuel l = groupByKeyAux fuel' l := by
  intro fuel
  induction fuel with
  | zero =>
    intro fuel' l h h'
    have hl : l = [] := List.eq_nil_of_length_eq_zero (Nat.le_zero.mp h)
    subst hl
    cases fuel' <;> rfl
  | succ f ih =>
    intro fuel' l h h'
    cases l with
    | nil => cases fuel' <;> rfl
    | cons kv rest =>
      cases fuel' with
      | zero => simp at h'
      | succ f' =>
        obtain ⟨k, v⟩ := kv
        simp only [groupByKeyAux]
        congr 1
        have hr : rest.length ≤ f := by simpa using h
        have hr' : rest.length ≤ f' := by simpa using h'
        exact ih f' _ (le_trans (List.length_filter_le _ _) hr)
          (le_trans (List.length_filter_le _ _) hr')

theorem groupByKeyAux_filter (P : String → Bool) :
    ∀ (fuel : Nat) (l : List (String × String)),
      l.length ≤ fuel →
      (groupByKeyAux fuel l).filter (fun kv => P kv.1) =
        groupByKeyAux fuel (l.filter (fun kv => P kv.1)) := by
  intro fuel
  induction fuel with
  | zero =>
    intro l h
    have hl : l = [] := List.eq_nil_of_length_eq_zero (Nat.le_zero.mp h)
    subst hl
    rfl
  | succ f ih =>
    intro l h
    cases l with
    | nil => rfl
    | cons kv rest =>
      obtain ⟨k, v⟩ := kv
      have hr : rest.length ≤ f := by simpa using h
      by_cases hP : P k = true
      · have hA : (rest.filter (fun kv => P kv.1)).filter (fun p => p.1 == k)
            = rest.filter (fun p => p.1 == k) := by
          rw [List.filter_filter]
          apply List.filter_congr
          intro a _
          by_cases hk : (a.1 == k) = true
          · have ha : a.1 = k := beq_iff_eq.mp hk
            simp [hk, ha, hP]
          · simp [Bool.not_eq_true] at hk
            simp [hk]
        have hB : (groupByKeyAux f (rest.filter (fun p => !(p.1 == k)))).filter (fun kv => P kv.1)
            = groupByKeyAux f ((rest.filter (fun kv => P kv.1)).filter (fun p => !(p.1 == k))) := by
          rw [ih _ (le_trans (List.length_filter_le _ _) hr)]
          congr 1
          rw [List.filter_filter, List.filter_filter]
          apply List.filter_congr
          intro a _
          exact Bool.and_comm _ _
        calc (groupByKeyAux (f + 1) ((k, v) :: rest)).filter (fun kv => P kv.1)
            = (k, v :: (rest.filter (fun p => p.1 == k)).map Prod.snd)
                :: (groupByKeyAux f (rest.filter (fun p => !(p.1 == k)))).filter (fun kv => P kv.1) := by
              simp only [groupByKeyAux]
              rw [List.filter_cons_of_pos (by simpa using hP)]
          _ = (k, v :: ((rest.filter (fun kv => P kv.1)).filter (fun p => p.1 == k)).map Prod.snd)
                :: groupByKeyAux f ((rest.filter (fun kv => P kv.1)).filter (fun p => !(p.1 == k))) := by
              rw [hA, hB]
          _ = groupByKeyAux (f + 1) (((k, v) :: rest).filter (fun kv => P kv.1)) := by
              rw [List.filter_cons_of_pos (by simpa using hP)]
              simp only [groupByKeyAux]
      · have hPf : P k = false := by simpa using hP
        have hdrop : (rest.filter (fun p => !(p.1 == k))).filter (fun kv => P kv.1)
            = rest.filter (fun kv => P kv.1) := by
          rw [List.filter_filter]
          apply List.filter_congr
          intro a _
          by_cases hk : (a.1 == k) = true
          · have ha : a.1 = k := beq_iff_eq.mp hk
            simp [ha, hPf, hk]
          · simp [Bool.not_eq_true] at hk
            simp [hk]
        calc (groupByKeyAux (f + 1) ((k, v) :: rest)).filter (fun kv => P kv.1)
            = (groupByKeyAux f (rest.filter (fun p => !(p.1 == k)))).filter (fun kv => P kv.1) := by
              simp only [groupByKeyAux]
              rw [List.filter_cons_of_neg (by simp [hPf])]
          _ = groupByKeyAux f (rest.filter (fun kv => P kv.1)) := by
              rw [ih _ (le_trans (List.length_filter_le _ _) hr), hdrop]
          _ = groupByKeyAux (f + 1) (((k, v) :: rest).filter (fun kv => P kv.1)) := by
              rw [List.filter_cons_of_neg (by simp [hPf])]
              exact groupByKeyAux_fuel_eq f (f + 1) _
                (le_trans (List.length_filter_le _ _) hr)
                (le_trans (List.length_filter_le _ _) (Nat.le_succ_of_le hr))

theorem groupByKey_filter (P : String → Bool) (l : List (String × String)) :
    (groupByKey l).filter (fun kv => P kv.1) =
      groupByKey (l.filter (fun kv => P kv.1)) := by
  unfold groupByKey
  rw [groupByKeyAux_filter P l.length l le_rfl]
  exact groupByKeyAux_fuel_eq l.length (l.filter (fun kv => P kv.1)).length _
    (List.length_filter_le _ _) le_rfl

theorem groupByKey_filter_tracking (l : List (String × String)) :
    (groupByKey l).filter (fun kv => !(TRACKING_PARAMS.contains (lowerStr kv.1)))
      = groupByKey (l.filter (fun kv => !(TRACKING_PARAMS.contains (lowerStr kv.1)))) :=
  groupByKey_filter (fun s => !(TRACKING_PARAMS.contains (lowerStr s))) l

/-- C1: two URLs that differ only in tracking query parameters (their
non-tracking query fields agree) or in trailing slashes on the path
normalize to the same canonical string, and therefore `url_hash` returns
the same hex digest. -/
theorem C1_normalize_url_tracking_params_trailing_slash
    (u : UrlParts) (p1 p2 q1 q2 : String)
    (hp : rstripChar '/' p1 = rstripChar '/' p2)
    (hq : (parse_qsl q1).filter (fun kv => !(TRACKING_PARAMS.contains (lowerStr kv.1)))
        = (parse_qsl q2).filter (fun kv => !(TRACKING_PARAMS.contains (lowerStr kv.1)))) :
    normalize_url { u with path := p1, query := q1 }
      = normalize_url { u with path := p2, query := q2 }
    ∧ url_hash { u with path := p1, query := q1 }
      = url_hash { u with path := p2, query := q2 } := by
  have hqq : urlencode ((parse_qs q1).filter (fun kv => !(TRACKING_PARAMS.contains (lowerStr kv.1))))
      = urlencode ((parse_qs q2).filter (fun kv => !(TRACKING_PARAMS.contains (lowerStr kv.1)))) := by
    unfold parse_qs
    rw [groupByKey_filter_tracking, groupByKey_filter_tracking, hq]
  have hnorm : normalize_url { u with path := p1, query := q1 }
      = normalize_url { u with path := p2, query := q2 } := by
    show urlunparse (lowerStr u.scheme) (lowerStr u.netloc) (rstripChar '/' p1) u.params
        (urlencode ((parse_qs q1).filter (fun kv => !(TRACKING_PARAMS.contains (lowerStr kv.1))))) ""
      = urlunparse (lowerStr u.scheme) (lowerStr u.netloc) (rstripChar '/' p2) u.params
        (urlencode ((parse_qs q2).filter (fun kv => !(TRACKING_PARAMS.contains (lowerStr kv.1))))) ""
    rw [hp, hqq]
  refine ⟨hnorm, ?_⟩
  unfold url_hash
  rw [hnorm]

theorem C1_witness :
    normalize_url ⟨"https", "example.com", "/news/", "", "a=1&utm_source=x", "f"⟩
      = normalize_url ⟨"https", "example.com", "/news", "", "a=1", "f"⟩
    ∧ url_hash ⟨"https", "example.com", "/news/", "", "a=1&utm_source=x", "f"⟩
      = url_hash ⟨"https", "example.com", "/news", "", "a=1", "f"⟩ :=
  C1_normalize_url_tracking_params_trailing_slash
    ⟨"https", "example.com", "ignored", "", "ignored", "f"⟩
    "/news/" "/news" "a=1&utm_source=x" "a=1" (by decide) (by decide)

/-- C2: `score_candidate` returns all three sub-scores and the composite,
each rounded to two decimals; with a known publish date the composite is
`0.50·keyword + 0.30·recency + 0.20·(weight·100)` and with an unknown date
`0.714·keyword + 0.286·(weight·100)` (the redistributed two-term form),
rounded to two decimals. -/
theorem C2_score_candidate_returns_rounded_composite
    (now : ℚ) (title snippet : Option String) (published_date : Option ℚ)
    (source_type industry_description source_keywords : String) :
    (score_candidate now title snippet published_date source_type
        industry_description source_keywords).keyword_score
      = round2 (compute_keyword_score title snippet industry_description source_keywords)
    ∧ (score_candidate now title snippet published_date source_type
        industry_description source_keywords).recency_score
      = round2 (compute_recency_score now published_date)
    ∧ (score_candidate now title snippet published_date source_type
        industry_description source_keywords).source_weight
      = round2 (get_source_weight source_type)
    ∧ (score_candidate now title snippet published_date source_type
        industry_description source_keywords).relevance_score
      = round2 (match published_date with
          | some _ =>
            0.50 * compute_keyword_score title snippet industry_description source_keywords
              + 0.30 * compute_recency_score now published_date
              + 0.20 * (get_source_weight source_type * 100)
          | none =>
            0.714 * compute_keyword_score title snippet industry_description source_keywords
              + 0.286 * (get_source_weight source_type * 100)) := by
  refine ⟨rfl, rfl, rfl, ?_⟩
  cases published_date with
  | none =>
    show round2 _ = round2 _
    congr 1
    rw [if_neg (by simp)]
    ring
  | some pd =>
    show round2 _ = round2 _
    congr 1
    rw [if_pos (by simp)]
    ring

/-- C9: `compute_recency_score` is determined by the age in days via the
non-increasing step ladder 100/85/70/50/30/15/5 at thresholds 1, 2, 4, 8,
15, 29 days; a missing date scores 40; age 0 scores 100, age 40 scores 5. -/
theorem C9_recency_score_step_function :
    (∀ now : ℚ, compute_recency_score now none = 40)
    ∧ (∀ now pd : ℚ, compute_recency_score now (some pd) = recencyOfAge ((now - pd) / 86400))
    ∧ recencyOfAge 0 = 100 ∧ recencyOfAge 40 = 5
    ∧ (∀ d1 d2 : ℚ, d1 ≤ d2 → recencyOfAge d2 ≤ recencyOfAge d1)
    ∧ (∀ d : ℚ,
        (d < 1 → recencyOfAge d = 100)
        ∧ (1 ≤ d → d < 2 → recencyOfAge d = 85)
        ∧ (2 ≤ d → d < 4 → recencyOfAge d = 70)
        ∧ (4 ≤ d → d < 8 → recencyOfAge d = 50)
        ∧ (8 ≤ d → d < 15 → recencyOfAge d = 30)
        ∧ (15 ≤ d → d < 29 → recencyOfAge d = 15)
        ∧ (29 ≤ d → recencyOfAge d = 5)) := by
  refine ⟨fun now => by norm_num [compute_recency_score], fun now pd => rfl,
    by norm_num [recencyOfAge], by norm_num [recencyOfAge], ?_, ?_⟩
  · intro d1 d2 h
    unfold recencyOfAge
    split_ifs <;> try norm_num
    all_goals linarith
  · intro d
    refine ⟨?_, ?_, ?_, ?_, ?_, ?_, ?_⟩ <;>
      · intro h1
        try intro h2
        unfold recencyOfAge
        split_ifs <;> try norm_num
        all_goals linarith

theorem C9_witness : recencyOfAge 10 ≤ recencyOfAge 3 :=
  C9_recency_score_step_function.2.2.2.2.1 3 10 (by norm_num)

theorem verdictRow_url (pd : String → Option ℚ) (xs : List JVal) (i : Nat)
    (item : DiscoveredItem) : (verdictRow pd xs i item).url = item.url := by
  unfold verdictRow
  cases verdictMapGet xs i <;> rfl

theorem verdictRow_verdict_valid (pd : String → Option ℚ) (xs : List JVal) (i : Nat)
    (item : DiscoveredItem) :
    (verdictRow pd xs i item).verdict = "relevant_news"
    ∨ (verdictRow pd xs i item).verdict = "maybe"
    ∨ (verdictRow pd xs i item).verdict = "not_news" := by
  unfold verdictRow
  cases hm : verdictMapGet xs i with
  | none => right; left; rfl
  | some kvs =>
    dsimp only
    cases hv : jGet kvs "verdict" with
    | none => right; left; rfl
    | some j =>
      cases j with
      | str s =>
        by_cases hc : (["relevant_news", "maybe", "not_news"].contains s) = true
        · have hmem : s ∈ ["relevant_news", "maybe", "not_news"] :=
            List.mem_of_elem_eq_true hc
          simp only [List.mem_cons, List.mem_singleton] at hmem
          simp only [hc, if_true]
          rcases hmem with h | h | h
          · left; exact h
          · right; left; exact h
          · right; right
            simpa using h
        · simp only [Bool.not_eq_true] at hc
          simp only [hc]
          right; left
          simp
      | null => right; left; rfl
      | bool b => right; left; rfl
      | num q => right; left; rfl
      | arr a => right; left; rfl
      | obj o => right; left; rfl

theorem verdictRows_map_url (pd : String → Option ℚ) (xs : List JVal) :
    ∀ (b : Nat) (items : List DiscoveredItem),
      (verdictRows pd xs b items).map (fun v => v.url) = items.map (fun it => it.url) := by
  intro b items
  induction items generalizing b with
  | nil => rfl
  | cons item rest ih =>
    simp only [verdictRows, List.map_cons]
    rw [ih, verdictRow_url]

theorem verdictRows_verdict_valid (pd : String → Option ℚ) (xs : List JVal) :
    ∀ (b : Nat) (items : List DiscoveredItem), ∀ v ∈ verdictRows pd xs b items,
      v.verdict = "relevant_news" ∨ v.verdict = "maybe" ∨ v.verdict = "not_news" := by
  intro b items
  induction items generalizing b with
  | nil => intro v hv; simp [verdictRows] at hv
  | cons item rest ih =>
    intro v hv
    simp only [verdictRows, List.mem_cons] at hv
    rcases hv with h | h
    · subst h; exact verdictRow_verdict_valid pd xs b item
    · exact ih (b + 1) v h

theorem verdictRows_getElem (pd : String → Option ℚ) (xs : List JVal) :
    ∀ (items : List DiscoveredItem) (b i : Nat),
      (verdictRows pd xs b items)[i]? = (items[i]?).map (verdictRow pd xs (b + i)) := by
  intro items
  induction items with
  | nil => intro b i; simp [verdictRows]
  | cons item rest ih =>
    intro b i
    cases i with
    | zero => simp [verdictRows]
    | succ i =>
      simp only [verdictRows, List.getElem?_cons_succ]
      rw [ih (b + 1) i]
      have hbi : b + 1 + i = b + (i + 1) := by omega
      rw [hbi]

theorem parse_response_map_url (pd : String → Option ℚ) (r : LLMResponse)
    (items : List DiscoveredItem) :
    (parse_response pd r items).map (fun v => v.url) = items.map (fun it => it.url) := by
  have hfb : (items.map (fun item =>
      ({ url := item.url, verdict := "maybe", reasoning := .str "parse fallback",
         published_date := none } : VerdictRec))).map (fun v => v.url)
      = items.map (fun it => it.url) := by
    rw [List.map_map]; rfl
  have hvj : ∀ v, (verdictsFromJson pd v items (items.map (fun item =>
      { url := item.url, verdict := "maybe", reasoning := .str "parse fallback",
        published_date := none }))).map (fun v => v.url) = items.map (fun it => it.url) := by
    intro v
    cases v with
    | arr xs => exact verdictRows_map_url pd xs 0 items
    | null => exact hfb
    | bool b => exact hfb
    | num q => exact hfb
    | str s => exact hfb
    | obj o => exact hfb
  simp only [parse_response]
  repeat' split
  all_goals first | exact hfb | exact hvj _

theorem parse_response_verdict_valid (pd : String → Option ℚ) (r : LLMResponse)
    (items : List DiscoveredItem) :
    ∀ v ∈ parse_response pd r items,
      v.verdict = "relevant_news" ∨ v.verdict = "maybe" ∨ v.verdict = "not_news" := by
  have hfb : ∀ v ∈ items.map (fun item =>
      ({ url := item.url, verdict := "maybe", reasoning := .str "parse fallback",
         published_date := none } : VerdictRec)),
      v.verdict = "relevant_news" ∨ v.verdict = "maybe" ∨ v.verdict = "not_news" := by
    intro v hv
    rcases List.mem_map.mp hv with ⟨item, _, rfl⟩
    right; left; rfl
  have hvj : ∀ w, ∀ v ∈ verdictsFromJson pd w items (items.map (fun item =>
      { url := item.url, verdict := "maybe", reasoning := .str "parse fallback",
        published_date := none })),
      v.verdict = "relevant_news" ∨ v.verdict = "maybe" ∨ v.verdict = "not_news" := by
    intro w
    cases w with
    | arr xs => exact verdictRows_verdict_valid pd xs 0 items
    | null => exact hfb
    | bool b => exact hfb
    | num q => exact hfb
    | str s => exact hfb
    | obj o => exact hfb
  simp only [parse_response]
  repeat' split
  all_goals first | exact hfb | exact hvj _

theorem triage_batch_map_url (pd : String → Option ℚ) (o : BatchOutcome)
    (items : List DiscoveredItem) :
    (triage_batch pd o items).map (fun v => v.url) = items.map (fun it => it.url) := by
  cases o with
  | finalResponse r => exact parse_response_map_url pd r items
  | rateLimitedRetryOk r => exact parse_response_map_url pd r items
  | rateLimitedRetryFail => rw [triage_batch, List.map_map]; rfl
  | exn => rw [triage_batch, List.map_map]; rfl

theorem triage_batch_verdict_valid (pd : String → Option ℚ) (o : BatchOutcome)
    (items : List DiscoveredItem) :
    ∀ v ∈ triage_batch pd o items,
      v.verdict = "relevant_news" ∨ v.verdict = "maybe" ∨ v.verdict = "not_news" := by
  have hfb : ∀ v ∈ items.map (fun item =>
      ({ url := item.url, verdict := "maybe", reasoning := .str "triage fallback",
         published_date := none } : VerdictRec)),
      v.verdict = "relevant_news" ∨ v.verdict = "maybe" ∨ v.verdict = "not_news" := by
    intro v hv
    rcases List.mem_map.mp hv with ⟨item, _, rfl⟩
    right; left; rfl
  cases o with
  | finalResponse r => exact parse_response_verdict_valid pd r items
  | rateLimitedRetryOk r => exact parse_response_verdict_valid pd r items
  | rateLimitedRetryFail => exact hfb
  | exn => exact hfb

theorem parse_response_undecodable (pd : String → Option ℚ) (r : LLMResponse)
    (items : List DiscoveredItem)
    (hj : jLoads (decodeText r) = none)
    (hb : ∀ sub, bracketSlice (decodeText r).data = some sub →
      jLoads (String.mk sub) = none) :
    parse_response pd r items = items.map (fun item =>
      { url := item.url, verdict := "maybe", reasoning := .str "parse fallback",
        published_date := none }) := by
  have hdt : (if pyIn "\x60\x60\x60" (pyStrip (responseText r)) then
      match findFenceMatch (pyStrip (responseText r)).data with
      | some captured => pyStrip (String.mk captured)
      | none => pyStrip (responseText r)
    else pyStrip (responseText r)) = decodeText r := rfl
  simp only [parse_response]
  by_cases h0 : pyStrip (responseText r) = ""
  · rw [if_pos h0]
  · rw [if_neg h0, hdt]
    by_cases h1 : decodeText r = ""
    · rw [if_pos h1]
    · rw [if_neg h1, hj]
      cases hbr : bracketSlice (decodeText r).data with
      | none => rfl
      | some sub =>
        dsimp only
        rw [hb sub hbr]

theorem chunkListAux_flatten {α : Type} (bs : Nat) (hbs : 1 ≤ bs) :
    ∀ (fuel : Nat) (l : List α), l.length ≤ fuel →
      (chunkListAux bs fuel l).flatten = l := by
  intro fuel
  induction fuel with
  | zero =>
    intro l h
    have hl : l = [] := List.eq_nil_of_length_eq_zero (Nat.le_zero.mp h)
    subst hl
    rfl
  | succ f ih =>
    intro l h
    cases l with
    | nil => rfl
    | cons x xs =>
      simp only [chunkListAux, List.flatten_cons]
      rw [ih ((x :: xs).drop bs) (by simp at h ⊢; omega)]
      exact List.take_append_drop bs (x :: xs)

theorem chunkList_flatten {α : Type} (bs : Nat) (hbs : 1 ≤ bs) (l : List α) :
    (chunkList bs l).flatten = l :=
  chunkListAux_flatten bs hbs l.length l le_rfl

theorem triageBatches_map_url (pd : String → Option ℚ) (oc : Nat → BatchOutcome) :
    ∀ (chunks : List (List DiscoveredItem)) (bi : Nat),
      (triageBatches pd oc bi chunks).map (fun v => v.url)
        = chunks.flatten.map (fun it => it.url) := by
  intro chunks
  induction chunks with
  | nil => intro bi; rfl
  | cons c rest ih =>
    intro bi
    simp only [triageBatches, List.flatten_cons, List.map_append]
    rw [triage_batch_map_url, ih (bi + 1)]

theorem triageBatches_verdict_valid (pd : String → Option ℚ) (oc : Nat → BatchOutcome) :
    ∀ (chunks : List (List DiscoveredItem)) (bi : Nat),
      ∀ v ∈ triageBatches pd oc bi chunks,
        v.verdict = "relevant_news" ∨ v.verdict = "maybe" ∨ v.verdict = "not_news" := by
  intro chunks
  induction chunks with
  | nil => intro bi v hv; simp [triageBatches] at hv
  | cons c rest ih =>
    intro bi v hv
    simp only [triageBatches, List.mem_append] at hv
    rcases hv with h | h
    · exact triage_batch_verdict_valid pd _ c v h
    · exact ih (bi + 1) v h

/-- C6: for every input list, `triage_items` returns exactly one verdict per
input item, keyed by the item's URL in input order, with a verdict among
`relevant_news` (relevant), `maybe` (ambiguous) and `not_news`; a missing API
key, a batch exception, a failed rate-limit retry, a final response whose
text fails to decode as JSON (both directly and after the bracket-slice
retry), or a missing item index in the decoded response all downgrade the
affected items to `maybe`, and the function is total (it never raises). -/
theorem C6_triage_one_verdict_per_item_with_fallbacks
    (pd : String → Option ℚ) (apiKey : Option String) (bs : Nat)
    (oc : Nat → BatchOutcome) (items : List DiscoveredItem) (hbs : 1 ≤ bs) :
    (triage_items pd apiKey bs oc items).map (fun v => v.url)
        = items.map (fun it => it.url)
    ∧ (∀ v ∈ triage_items pd apiKey bs oc items,
        v.verdict = "relevant_news" ∨ v.verdict = "maybe" ∨ v.verdict = "not_news")
    ∧ (apiKey = none → ∀ v ∈ triage_items pd apiKey bs oc items, v.verdict = "maybe")
    ∧ (∀ v ∈ triage_batch pd .exn items, v.verdict = "maybe")
    ∧ (∀ v ∈ triage_batch pd .rateLimitedRetryFail items, v.verdict = "maybe")
    ∧ (∀ r : LLMResponse, jLoads (decodeText r) = none →
        (∀ sub, bracketSlice (decodeText r).data = some sub →
          jLoads (String.mk sub) = none) →
        ∀ v ∈ triage_batch pd (.finalResponse r) items, v.verdict = "maybe")
    ∧ (∀ (i : Nat) (item : DiscoveredItem) (xs : List JVal),
        items[i]? = some item → verdictMapGet xs i = none →
        (verdictRows pd xs 0 items)[i]?
          = some { url := item.url, verdict := "maybe",
                   reasoning := .str "no reasoning provided", published_date := none }) := by
  refine ⟨?_, ?_, ?_, ?_, ?_, ?_, ?_⟩
  · unfold triage_items
    by_cases he : items.isEmpty
    · have hni : items = [] := List.isEmpty_iff.mp he
      subst hni
      simp
    · rw [if_neg he]
      cases apiKey with
      | none => rw [List.map_map]; rfl
      | some k =>
        dsimp only
        rw [triageBatches_map_url, chunkList_flatten bs hbs]
  · intro v hv
    unfold triage_items at hv
    by_cases he : items.isEmpty
    · rw [if_pos he] at hv
      simp at hv
    · rw [if_neg he] at hv
      cases apiKey with
      | none =>
        rcases List.mem_map.mp hv with ⟨item, _, rfl⟩
        right; left; rfl
      | some k => exact triageBatches_verdict_valid pd oc _ 0 v hv
  · intro hk v hv
    subst hk
    unfold triage_items at hv
    by_cases he : items.isEmpty
    · rw [if_pos he] at hv
      simp at hv
    · rw [if_neg he] at hv
      rcases List.mem_map.mp hv with ⟨item, _, rfl⟩
      rfl
  · intro v hv
    simp only [triage_batch] at hv
    rcases List.mem_map.mp hv with ⟨item, _, rfl⟩
    rfl
  · intro v hv
    simp only [triage_batch] at hv
    rcases List.mem_map.mp hv with ⟨item, _, rfl⟩
    rfl
  · intro r hj hb v hv
    simp only [triage_batch] at hv
    rw [parse_response_undecodable pd r items hj hb] at hv
    rcases List.mem_map.mp hv with ⟨item, _, rfl⟩
    rfl
  · intro i item xs hi hm
    rw [verdictRows_getElem pd xs items 0 i, hi]
    simp only [Option.map_some, Nat.zero_add]
    unfold verdictRow
    rw [hm]
    rfl

theorem C6_witness :
    (triage_items (fun _ => none) (some "key") 40 (fun _ => .exn)
        [({ url := "https://example.com/a" } : DiscoveredItem)]).map (fun v => v.url)
      = [({ url := "https://example.com/a" } : DiscoveredItem)].map (fun it => it.url)
    ∧ (∀ v ∈ triage_items (fun _ => none) (some "key") 40 (fun _ => .exn)
        [({ url := "https://example.com/a" } : DiscoveredItem)],
        v.verdict = "relevant_news" ∨ v.verdict = "maybe" ∨ v.verdict = "not_news")
    ∧ ((some "key" : Option String) = none →
        ∀ v ∈ triage_items (fun _ => none) (some "key") 40 (fun _ => .exn)
          [({ url := "https://example.com/a" } : DiscoveredItem)], v.verdict = "maybe")
    ∧ (∀ v ∈ triage_batch (fun _ => none) .exn [({ url := "https://example.com/a" } : DiscoveredItem)],
        v.verdict = "maybe")
    ∧ (∀ v ∈ triage_batch (fun _ => none) .rateLimitedRetryFail
        [({ url := "https://example.com/a" } : DiscoveredItem)], v.verdict = "maybe")
    ∧ (∀ r : LLMResponse, jLoads (decodeText r) = none →
        (∀ sub, bracketSlice (decodeText r).data = some sub →
          jLoads (String.mk sub) = none) →
        ∀ v ∈ triage_batch (fun _ => none) (.finalResponse r)
          [({ url := "https://example.com/a" } : DiscoveredItem)], v.verdict = "maybe")
    ∧ (∀ (i : Nat) (item : DiscoveredItem) (xs : List JVal),
        [({ url := "https://example.com/a" } : DiscoveredItem)][i]? = some item →
        verdictMapGet xs i = none →
        (verdictRows (fun _ => none) xs 0 [({ url := "https://example.com/a" } : DiscoveredItem)])[i]?
          = some { url := item.url, verdict := "maybe",
                   reasoning := .str "no reasoning provided", published_date := none }) :=
  C6_triage_one_verdict_per_item_with_fallbacks (fun _ => none) (some "key") 40
    (fun _ => .exn) [({ url := "https://example.com/a" } : DiscoveredItem)] (by norm_num)

/-- C5: an item whose triage verdict is `not_news` is persisted (never
dropped) as a candidate with `relevance_score = 0` and `status = rejected`,
carrying the triage verdict and reasoning in its metadata, with no scoring
performed (all scoring fields are the constant zero) and no enrichment
attempted (`enrich_item` is not invoked and no enrichment counter moves). -/
theorem C5_not_news_persisted_rejected_no_enrichment
    (env : EnrichEnv) (cfg : RunConfig) (publication_id : Nat) (now : ℚ)
    (st : EnrichState) (stats : RunStats) (item : DiscoveredItem)
    (source : NewsSourceLite) (hash_val : String) (vi : VerdictRec)
    (hv : vi.verdict = "not_news") :
    processItem env cfg publication_id now st stats item source hash_val (some vi)
      = { candidate :=
            { publication_id := publication_id, news_source_id := source.id,
              url := item.url, url_hash := hash_val, title := item.title,
              snippet := item.snippet, author := item.author,
              published_date := item.published_date,
              relevance_score := some 0, keyword_score := some 0,
              recency_score := some 0, source_weight := some 0,
              status := "rejected",
              extra_metadata := some (mdSet
                (mdSet item.metadata "triage_verdict" (.str "not_news"))
                "triage_reasoning" vi.reasoning) },
          stats := { stats with new_candidates := stats.new_candidates + 1 },
          enrichState := st, enrichCalled := false } := by
  unfold processItem
  rw [if_pos]
  · rfl
  · simp [hv]

theorem C5_witness :
    processItem
      ⟨fun _ => none, fun _ => .error "e", fun _ md _ => md, fun _ => none,
        fun _ => none, "t0"⟩
      ⟨25, 50, none⟩ 1 0 ⟨false⟩ {} { url := "https://x.test/a" }
      ⟨7, "RSS Feed", none, none⟩ "h" (some ⟨"https://x.test/a", "not_news", .str "nav page", none⟩)
      = { candidate :=
            { publication_id := 1, news_source_id := 7,
              url := "https://x.test/a", url_hash := "h", title := none,
              snippet := none, author := none, published_date := none,
              relevance_score := some 0, keyword_score := some 0,
              recency_score := some 0, source_weight := some 0,
              status := "rejected",
              extra_metadata := some (mdSet
                (mdSet [] "triage_verdict" (.str "not_news"))
                "triage_reasoning" (.str "nav page")) },
          stats := { new_candidates := 1 },
          enrichState := ⟨false⟩, enrichCalled := false } :=
  C5_not_news_persisted_rejected_no_enrichment
    ⟨fun _ => none, fun _ => .error "e", fun _ md _ => md, fun _ => none,
      fun _ => none, "t0"⟩
    ⟨25, 50, none⟩ 1 0 ⟨false⟩ {} { url := "https://x.test/a" }
    ⟨7, "RSS Feed", none, none⟩ "h" ⟨"https://x.test/a", "not_news", .str "nav page", none⟩
    rfl

/-- C4: after a publish-date backfill, the stored relevance equals
`round2 (base_recomputed * multiplier)` where `base_recomputed` is the
composite rebuilt from the stored keyword and source-weight sub-scores with
the new recency score — the multiplier is applied to the fresh base, never
to the already-multiplied stored relevance, so repeating the rescoring any
number of times yields the same result. -/
theorem C4_rescoring_never_double_applies_multiplier
    (scores : Scores) (v : String) (new_recency : ℚ) :
    ((rescoreWithDate scores (some v) new_recency).relevance_score
      = round2 (round2 (scores.keyword_score * 0.50 + new_recency * 0.30
          + scores.source_weight * 100 * 0.20) * triageMultiplier v))
    ∧ (∀ verdict : Option String,
        rescoreWithDate (rescoreWithDate scores verdict new_recency) verdict new_recency
          = rescoreWithDate scores verdict new_recency)
    ∧ (∀ (verdict : Option String) (n : Nat),
        (fun s => rescoreWithDate s verdict new_recency)^[n + 1] scores
          = rescoreWithDate scores verdict new_recency) := by
  have hidem : ∀ verdict : Option String,
      rescoreWithDate (rescoreWithDate scores verdict new_recency) verdict new_recency
        = rescoreWithDate scores verdict new_recency := by
    intro verdict
    cases verdict <;> rfl
  refine ⟨rfl, hidem, ?_⟩
  intro verdict n
  induction n with
  | zero => rfl
  | succ m ih =>
    rw [Function.iterate_succ_apply]
    calc (fun s => rescoreWithDate s verdict new_recency)^[m + 1]
          (rescoreWithDate scores verdict new_recency)
        = (fun s => rescoreWithDate s verdict new_recency)^[m]
            (rescoreWithDate (rescoreWithDate scores verdict new_recency) verdict new_recency) := by
          rw [Function.iterate_succ_apply]
      _ = (fun s => rescoreWithDate s verdict new_recency)^[m]
            (rescoreWithDate scores verdict new_recency) := by rw [hidem]
      _ = (fun s => rescoreWithDate s verdict new_recency)^[m + 1] scores := by
          rw [Function.iterate_succ_apply]
      _ = rescoreWithDate scores verdict new_recency := ih

/-- C10: a candidate persisted through the one-row-at-a-time fallback path
carries only publication, source, url, urlHash, title, snippet and status
(plus triage metadata for not-news items): its scoring fields, publish
date and author are absent — unlike the bulk path, whose candidates always
carry a relevance score. -/
theorem C10_fallback_candidates_are_bare
    (publication_id : Nat) (item : DiscoveredItem) (source : NewsSourceLite)
    (hash_val : String) (vinfo : Option VerdictRec) :
    (fallbackCandidate publication_id item source hash_val vinfo).relevance_score = none
    ∧ (fallbackCandidate publication_id item source hash_val vinfo).keyword_score = none
    ∧ (fallbackCandidate publication_id item source hash_val vinfo).recency_score = none
    ∧ (fallbackCandidate publication_id item source hash_val vinfo).source_weight = none
    ∧ (fallbackCandidate publication_id item source hash_val vinfo).published_date = none
    ∧ (fallbackCandidate publication_id item source hash_val vinfo).author = none
    ∧ (fallbackCandidate publication_id item source hash_val vinfo).url = item.url
    ∧ (fallbackCandidate publication_id item source hash_val vinfo).url_hash = hash_val
    ∧ (fallbackCandidate publication_id item source hash_val vinfo).title = item.title
    ∧ (fallbackCandidate publication_id item source hash_val vinfo).snippet = item.snippet
    ∧ (vinfo.map (fun vi => vi.verdict) = some "not_news" →
        (fallbackCandidate publication_id item source hash_val vinfo).status = "rejected"
        ∧ (fallbackCandidate publication_id item source hash_val vinfo).extra_metadata
          = some (mdSet (mdSet item.metadata "triage_verdict" (.str "not_news"))
              "triage_reasoning" ((vinfo.map (fun vi => vi.reasoning)).getD (.str ""))))
    ∧ (¬ vinfo.map (fun vi => vi.verdict) = some "not_news" →
        (fallbackCandidate publication_id item source hash_val vinfo).status = "new"
        ∧ (fallbackCandidate publication_id item source hash_val vinfo).extra_metadata = none)
    ∧ (∀ (env : EnrichEnv) (cfg : RunConfig) (pub : Nat) (now : ℚ) (st : EnrichState)
        (stats : RunStats) (item2 : DiscoveredItem) (source2 : NewsSourceLite)
        (h2 : String) (vinfo2 : Option VerdictRec),
        ((processItem env cfg pub now st stats item2 source2 h2 vinfo2).candidate.relevance_score).isSome
          = true) := by
  by_cases hv : vinfo.map (fun vi => vi.verdict) = some "not_news"
  · refine ⟨?_, ?_, ?_, ?_, ?_, ?_, ?_, ?_, ?_, ?_, fun _ => ⟨?_, ?_⟩, fun hc => absurd hv hc, ?_⟩
    all_goals try (simp only [fallbackCandidate]; rw [if_pos hv])
    · intro env cfg pub now st stats item2 source2 h2 vinfo2
      unfold processItem
      by_cases hb : (vinfo2.map (fun vi => vi.verdict)) = some "not_news"
      · rw [if_pos hb]
        rfl
      · rw [if_neg hb]
        rfl
  · refine ⟨?_, ?_, ?_, ?_, ?_, ?_, ?_, ?_, ?_, ?_, fun hc => absurd hc hv, fun _ => ⟨?_, ?_⟩, ?_⟩
    all_goals try (simp only [fallbackCandidate]; rw [if_neg hv])
    · intro env cfg pub now st stats item2 source2 h2 vinfo2
      unfold processItem
      by_cases hb : (vinfo2.map (fun vi => vi.verdict)) = some "not_news"
      · rw [if_pos hb]
        rfl
      · rw [if_neg hb]
        rfl

theorem C10_witness :
    (fallbackCandidate 1 { url := "https://x.test/a" } ⟨7, "News Site", none, none⟩ "h"
        none).relevance_score = none
    ∧ (fallbackCandidate 1 { url := "https://x.test/a" } ⟨7, "News Site", none, none⟩ "h"
        none).keyword_score = none
    ∧ (fallbackCandidate 1 { url := "https://x.test/a" } ⟨7, "News Site", none, none⟩ "h"
        none).recency_score = none
    ∧ (fallbackCandidate 1 { url := "https://x.test/a" } ⟨7, "News Site", none, none⟩ "h"
        none).source_weight = none
    ∧ (fallbackCandidate 1 { url := "https://x.test/a" } ⟨7, "News Site", none, none⟩ "h"
        none).published_date = none
    ∧ (fallbackCandidate 1 { url := "https://x.test/a" } ⟨7, "News Site", none, none⟩ "h"
        none).author = none
    ∧ (fallbackCandidate 1 { url := "https://x.test/a" } ⟨7, "News Site", none, none⟩ "h"
        none).url = ({ url := "https://x.test/a" } : DiscoveredItem).url
    ∧ (fallbackCandidate 1 { url := "https://x.test/a" } ⟨7, "News Site", none, none⟩ "h"
        none).url_hash = "h"
    ∧ (fallbackCandidate 1 { url := "https://x.test/a" } ⟨7, "News Site", none, none⟩ "h"
        none).title = ({ url := "https://x.test/a" } : DiscoveredItem).title
    ∧ (fallbackCandidate 1 { url := "https://x.test/a" } ⟨7, "News Site", none, none⟩ "h"
        none).snippet = ({ url := "https://x.test/a" } : DiscoveredItem).snippet
    ∧ ((none : Option VerdictRec).map (fun vi => vi.verdict) = some "not_news" →
        (fallbackCandidate 1 { url := "https://x.test/a" } ⟨7, "News Site", none, none⟩ "h"
          none).status = "rejected"
        ∧ (fallbackCandidate 1 { url := "https://x.test/a" } ⟨7, "News Site", none, none⟩ "h"
            none).extra_metadata
          = some (mdSet (mdSet ({ url := "https://x.test/a" } : DiscoveredItem).metadata
              "triage_verdict" (.str "not_news")) "triage_reasoning"
              (((none : Option VerdictRec).map (fun vi => vi.reasoning)).getD (.str ""))))
    ∧ (¬ (none : Option VerdictRec).map (fun vi => vi.verdict) = some "not_news" →
        (fallbackCandidate 1 { url := "https://x.test/a" } ⟨7, "News Site", none, none⟩ "h"
          none).status = "new"
        ∧ (fallbackCandidate 1 { url := "https://x.test/a" } ⟨7, "News Site", none, none⟩ "h"
            none).extra_metadata = none)
    ∧ (∀ (env : EnrichEnv) (cfg : RunConfig) (pub : Nat) (now : ℚ) (st : EnrichState)
        (stats : RunStats) (item2 : DiscoveredItem) (source2 : NewsSourceLite)
        (h2 : String) (vinfo2 : Option VerdictRec),
        ((processItem env cfg pub now st stats item2 source2 h2 vinfo2).candidate.relevance_score).isSome
          = true) :=
  C10_fallback_candidates_are_bare 1 { url := "https://x.test/a" }
    ⟨7, "News Site", none, none⟩ "h" none

theorem is_duplicate_append_ne (db : DbState) (pub : Nat) (h h' : String)
    (hne : ¬ h' = h) :
    is_duplicate_candidate ⟨db.rows ++ [(pub, h)]⟩ h' pub
      = is_duplicate_candidate db h' pub := by
  simp only [is_duplicate_candidate, List.any_append, List.any_cons, List.any_nil,
    Bool.or_false]
  have h2 : (h == h') = false := by
    rw [beq_eq_false_iff_ne]
    exact fun he => hne he.symm
  simp [h2]

theorem fallbackSave_spec (pub : Nat) (vm : String → Option VerdictRec) :
    ∀ (pending : List (DiscoveredItem × NewsSourceLite × String)) (db : DbState),
      (pending.map (fun p => p.2.2)).Nodup →
      (fallbackSave pub vm db pending).2.2
          = (pending.filter (fun p => !(is_duplicate_candidate db p.2.2 pub))).length
      ∧ (fallbackSave pub vm db pending).1.rows
          = db.rows ++ (pending.filter (fun p => !(is_duplicate_candidate db p.2.2 pub))).map
              (fun p => (pub, p.2.2))
      ∧ (fallbackSave pub vm db pending).2.1
          = (pending.filter (fun p => !(is_duplicate_candidate db p.2.2 pub))).map
              (fun p => fallbackCandidate pub p.1 p.2.1 p.2.2 (vm p.1.url)) := by
  intro pending
  induction pending with
  | nil =>
    intro db _
    refine ⟨rfl, ?_, rfl⟩
    simp [fallbackSave]
  | cons p rest ih =>
    intro db hnd
    obtain ⟨item, source, hash_val⟩ := p
    simp only [List.map_cons, List.nodup_cons] at hnd
    obtain ⟨hnotin, hndr⟩ := hnd
    by_cases hdup : is_duplicate_candidate db hash_val pub = true
    · have hfc : (!(is_duplicate_candidate db hash_val pub)) = false := by
        rw [hdup]; rfl
      simp only [fallbackSave]
      rw [if_pos hdup, List.filter_cons_of_neg (by simp [hfc])]
      exact ih db hndr
    · have hfc : (!(is_duplicate_candidate db hash_val pub)) = true := by
        simp only [Bool.not_eq_true] at hdup
        rw [hdup]; rfl
      have hfeq : rest.filter
            (fun q => !(is_duplicate_candidate (⟨db.rows ++ [(pub, hash_val)]⟩ : DbState) q.2.2 pub))
          = rest.filter (fun q => !(is_duplicate_candidate db q.2.2 pub)) := by
        apply List.filter_congr
        intro q hq
        have hqne : ¬ q.2.2 = hash_val := by
          intro hcc
          apply hnotin
          rw [← hcc]
          exact List.mem_map_of_mem (fun r => r.2.2) hq
        rw [is_duplicate_append_ne db pub hash_val q.2.2 hqne]
      have ihr := ih ⟨db.rows ++ [(pub, hash_val)]⟩ hndr
      rw [hfeq] at ihr
      simp only [fallbackSave]
      rw [if_neg hdup, List.filter_cons_of_pos (by simp [hfc])]
      refine ⟨?_, ?_, ?_⟩
      · simp only [List.length_cons]
        rw [ihr.1]
      · rw [ihr.2.1]
        simp [List.append_assoc]
      · simp only [List.map_cons]
        rw [ihr.2.2]

/-- C8 (amended): when the bulk commit hits a uniqueness violation, the
orchestrator re-persists the pending candidates one at a time from the
rolled-back store, skipping duplicates: every pending candidate whose hash
is not already stored is persisted (the other N−1 when exactly one
collides), and the run's reported stats — the error count in particular —
are unchanged by the commit phase: the collision is skipped silently and
adds 0, not 1, to the reported errors. -/
theorem C8_fallback_persists_noncolliding_errors_unchanged
    (db : DbState) (pub : Nat) (vm : String → Option VerdictRec)
    (pending : List (DiscoveredItem × NewsSourceLite × String)) (stats : RunStats)
    (hnd : (pending.map (fun p => p.2.2)).Nodup)
    (hviol : bulkCommitViolates db pub pending = true) :
    (commitPhase db pub vm pending stats).stats = stats
    ∧ (commitPhase db pub vm pending stats).usedFallback = true
    ∧ (commitPhase db pub vm pending stats).fallbackSaved
        = (pending.filter (fun p => !(is_duplicate_candidate db p.2.2 pub))).length
    ∧ (commitPhase db pub vm pending stats).db.rows
        = db.rows ++ (pending.filter (fun p => !(is_duplicate_candidate db p.2.2 pub))).map
            (fun p => (pub, p.2.2)) := by
  have hs := fallbackSave_spec pub vm pending db hnd
  simp only [commitPhase]
  rw [if_pos hviol]
  exact ⟨rfl, rfl, hs.1, hs.2.1⟩

theorem C8_witness :
    (commitPhase ⟨[(1, "h3")]⟩ 1 (fun _ => none)
        [({ url := "u1" }, ⟨1, "News Site", none, none⟩, "h1"),
         ({ url := "u3" }, ⟨1, "News Site", none, none⟩, "h3")] {}).stats = {}
    ∧ (commitPhase ⟨[(1, "h3")]⟩ 1 (fun _ => none)
        [({ url := "u1" }, ⟨1, "News Site", none, none⟩, "h1"),
         ({ url := "u3" }, ⟨1, "News Site", none, none⟩, "h3")] {}).usedFallback = true
    ∧ (commitPhase ⟨[(1, "h3")]⟩ 1 (fun _ => none)
        [({ url := "u1" }, ⟨1, "News Site", none, none⟩, "h1"),
         ({ url := "u3" }, ⟨1, "News Site", none, none⟩, "h3")] {}).fallbackSaved
        = (([({ url := "u1" }, ⟨1, "News Site", none, none⟩, "h1"),
            ({ url := "u3" }, ⟨1, "News Site", none, none⟩, "h3")]
            : List (DiscoveredItem × NewsSourceLite × String)).filter
            (fun p => !(is_duplicate_candidate ⟨[(1, "h3")]⟩ p.2.2 1))).length
    ∧ (commitPhase ⟨[(1, "h3")]⟩ 1 (fun _ => none)
        [({ url := "u1" }, ⟨1, "News Site", none, none⟩, "h1"),
         ({ url := "u3" }, ⟨1, "News Site", none, none⟩, "h3")] {}).db.rows
        = [(1, "h3")] ++ (([({ url := "u1" }, ⟨1, "News Site", none, none⟩, "h1"),
            ({ url := "u3" }, ⟨1, "News Site", none, none⟩, "h3")]
            : List (DiscoveredItem × NewsSourceLite × String)).filter
            (fun p => !(is_duplicate_candidate ⟨[(1, "h3")]⟩ p.2.2 1))).map
            (fun p => (1, p.2.2)) :=
  C8_fallback_persists_noncolliding_errors_unchanged ⟨[(1, "h3")]⟩ 1 (fun _ => none)
    [({ url := "u1" }, ⟨1, "News Site", none, none⟩, "h1"),
     ({ url := "u3" }, ⟨1, "News Site", none, none⟩, "h3")] {}
    (by decide) (by decide)

/-- C8 (counterexample to the claim as stated): five pending candidates, one
of which collides with an already-stored `(publication, urlHash)` row — the
bulk commit fails, the fallback persists the other four, but the run's
reported error count stays 0: it does not "reflect the colliding
candidate" (it is not 1). -/
theorem C8_counterexample :
    ((commitPhase ⟨[(1, "h3")]⟩ 1 (fun _ => none)
        [({ url := "u1" }, ⟨1, "News Site", none, none⟩, "h1"),
         ({ url := "u2" }, ⟨1, "News Site", none, none⟩, "h2"),
         ({ url := "u3" }, ⟨1, "News Site", none, none⟩, "h3"),
         ({ url := "u4" }, ⟨1, "News Site", none, none⟩, "h4"),
         ({ url := "u5" }, ⟨1, "News Site", none, none⟩, "h5")] {}).usedFallback,
     (commitPhase ⟨[(1, "h3")]⟩ 1 (fun _ => none)
        [({ url := "u1" }, ⟨1, "News Site", none, none⟩, "h1"),
         ({ url := "u2" }, ⟨1, "News Site", none, none⟩, "h2"),
         ({ url := "u3" }, ⟨1, "News Site", none, none⟩, "h3"),
         ({ url := "u4" }, ⟨1, "News Site", none, none⟩, "h4"),
         ({ url := "u5" }, ⟨1, "News Site", none, none⟩, "h5")] {}).fallbackSaved,
     (commitPhase ⟨[(1, "h3")]⟩ 1 (fun _ => none)
        [({ url := "u1" }, ⟨1, "News Site", none, none⟩, "h1"),
         ({ url := "u2" }, ⟨1, "News Site", none, none⟩, "h2"),
         ({ url := "u3" }, ⟨1, "News Site", none, none⟩, "h3"),
         ({ url := "u4" }, ⟨1, "News Site", none, none⟩, "h4"),
         ({ url := "u5" }, ⟨1, "News Site", none, none⟩, "h5")] {}).stats.errors)
      = (true, 4, 0)
    ∧ ¬ ((commitPhase ⟨[(1, "h3")]⟩ 1 (fun _ => none)
        [({ url := "u1" }, ⟨1, "News Site", none, none⟩, "h1"),
         ({ url := "u2" }, ⟨1, "News Site", none, none⟩, "h2"),
         ({ url := "u3" }, ⟨1, "News Site", none, none⟩, "h3"),
         ({ url := "u4" }, ⟨1, "News Site", none, none⟩, "h4"),
         ({ url := "u5" }, ⟨1, "News Site", none, none⟩, "h5")] {}).stats.errors = 1) := by
  constructor
  · rfl
  · decide

theorem lookup_getD_bounds (lo hi d : ℚ) (hd : lo ≤ d ∧ d ≤ hi) :
    ∀ (l : List (String × ℚ)), (∀ p ∈ l, lo ≤ p.2 ∧ p.2 ≤ hi) →
      ∀ s : String, lo ≤ (l.lookup s).getD d ∧ (l.lookup s).getD d ≤ hi := by
  intro l
  induction l with
  | nil => intro _ s; exact hd
  | cons kv rest ih =>
    intro hl s
    obtain ⟨k, v⟩ := kv
    simp only [List.lookup]
    by_cases hk : (s == k) = true
    · rw [hk]
      exact hl (k, v) (List.mem_cons_self _ _)
    · simp only [Bool.not_eq_true] at hk
      rw [hk]
      exact ih (fun p hp => hl p (List.mem_cons_of_mem _ hp)) s

theorem get_source_weight_bounds (s : String) :
    0 ≤ get_source_weight s ∧ get_source_weight s ≤ 1 := by
  unfold get_source_weight
  apply lookup_getD_bounds 0 1 0.5 (by norm_num)
  intro p hp
  unfold SOURCE_WEIGHTS at hp
  fin_cases hp <;> norm_num

theorem triageMultiplier_bounds (v : String) :
    0 ≤ triageMultiplier v ∧ triageMultiplier v ≤ 23/20 := by
  unfold triageMultiplier
  apply lookup_getD_bounds 0 (23/20) 1.0 (by norm_num)
  intro p hp
  unfold TRIAGE_MULTIPLIERS at hp
  fin_cases hp <;> norm_num

theorem compute_keyword_score_bounds (title snippet : Option String)
    (ind kws : String) :
    0 ≤ compute_keyword_score title snippet ind kws
    ∧ compute_keyword_score title snippet ind kws ≤ 100 := by
  unfold compute_keyword_score
  by_cases h : (extract_terms ind ++ extract_terms kws) = []
  · rw [if_pos h]
    norm_num
  · rw [if_neg h]
    dsimp only
    constructor
    · apply le_min
      · positivity
      · norm_num
    · have := min_le_right
        ((((extract_terms ind ++ extract_terms kws).dedup.filter
          (fun term => pyIn term (lowerStr ((title.getD "") ++ " " ++ (snippet.getD ""))))).length : ℚ)
          / (((extract_terms ind ++ extract_terms kws).dedup.length : ℚ)) * 100) (100.0 : ℚ)
      calc _ ≤ (100.0 : ℚ) := this
        _ = 100 := by norm_num

theorem compute_recency_score_bounds (now : ℚ) (pd : Option ℚ) :
    0 ≤ compute_recency_score now pd ∧ compute_recency_score now pd ≤ 100 := by
  unfold compute_recency_score
  cases pd with
  | none => norm_num
  | some d =>
    dsimp only
    split_ifs <;> norm_num

theorem score_candidate_bounds (now : ℚ) (title snippet : Option String)
    (pd : Option ℚ) (st ind kws : String) :
    0 ≤ (score_candidate now title snippet pd st ind kws).keyword_score
    ∧ (score_candidate now title snippet pd st ind kws).keyword_score ≤ 100
    ∧ 0 ≤ (score_candidate now title snippet pd st ind kws).recency_score
    ∧ (score_candidate now title snippet pd st ind kws).recency_score ≤ 100
    ∧ 0 ≤ (score_candidate now title snippet pd st ind kws).source_weight
    ∧ (score_candidate now title snippet pd st ind kws).source_weight ≤ 1
    ∧ 0 ≤ (score_candidate now title snippet pd st ind kws).relevance_score
    ∧ (score_candidate now title snippet pd st ind kws).relevance_score ≤ 100 := by
  obtain ⟨hkw0, hkw1⟩ := compute_keyword_score_bounds title snippet ind kws
  obtain ⟨hrc0, hrc1⟩ := compute_recency_score_bounds now pd
  obtain ⟨hsw0, hsw1⟩ := get_source_weight_bounds st
  have hrel0 : (0 : ℚ) ≤ (if pd.isSome then
      compute_keyword_score title snippet ind kws * 0.50
        + compute_recency_score now pd * 0.30 + get_source_weight st * 100 * 0.20
    else compute_keyword_score title snippet ind kws * 0.714
        + get_source_weight st * 100 * 0.286) := by
    split_ifs <;> nlinarith
  have hrel1 : (if pd.isSome then
      compute_keyword_score title snippet ind kws * 0.50
        + compute_recency_score now pd * 0.30 + get_source_weight st * 100 * 0.20
    else compute_keyword_score title snippet ind kws * 0.714
        + get_source_weight st * 100 * 0.286) ≤ 100 := by
    split_ifs <;> nlinarith
  unfold score_candidate
  dsimp only
  refine ⟨?_, ?_, ?_, ?_, ?_, ?_, ?_, ?_⟩
  · exact_mod_cast le_round2 _ 0 (by exact_mod_cast hkw0)
  · exact_mod_cast round2_le _ 100 (by exact_mod_cast hkw1)
  · exact_mod_cast le_round2 _ 0 (by exact_mod_cast hrc0)
  · exact_mod_cast round2_le _ 100 (by exact_mod_cast hrc1)
  · exact_mod_cast le_round2 _ 0 (by exact_mod_cast hsw0)
  · exact_mod_cast round2_le _ 1 (by exact_mod_cast hsw1)
  · exact_mod_cast le_round2 _ 0 (by exact_mod_cast hrel0)
  · exact_mod_cast round2_le _ 100 (by exact_mod_cast hrel1)

theorem applyTriageMultiplier_fields (scores : Scores) (verdict : Option String) :
    (applyTriageMultiplier scores verdict).keyword_score = scores.keyword_score
    ∧ (applyTriageMultiplier scores verdict).recency_score = scores.recency_score
    ∧ (applyTriageMultiplier scores verdict).source_weight = scores.source_weight := by
  cases verdict <;> exact ⟨rfl, rfl, rfl⟩

theorem applyTriageMultiplier_relevance_bounds (scores : Scores) (verdict : Option String)
    (h0 : 0 ≤ scores.relevance_score) (h1 : scores.relevance_score ≤ 100) :
    0 ≤ (applyTriageMultiplier scores verdict).relevance_score
    ∧ (applyTriageMultiplier scores verdict).relevance_score ≤ 115 := by
  cases verdict with
  | none =>
    exact ⟨h0, by simpa [applyTriageMultiplier] using le_trans h1 (by norm_num)⟩
  | some v =>
    obtain ⟨hm0, hm1⟩ := triageMultiplier_bounds v
    have hp0 : (0 : ℚ) ≤ scores.relevance_score * triageMultiplier v := by positivity
    have hp1 : scores.relevance_score * triageMultiplier v ≤ 115 := by nlinarith
    constructor
    · exact_mod_cast le_round2 _ 0 (by exact_mod_cast hp0)
    · exact_mod_cast round2_le _ 115 (by exact_mod_cast hp1)

theorem rescoreWithDate_bounds (scores : Scores) (verdict : Option String)
    (new_recency : ℚ)
    (hkw0 : 0 ≤ scores.keyword_score) (hkw1 : scores.keyword_score ≤ 100)
    (hsw0 : 0 ≤ scores.source_weight) (hsw1 : scores.source_weight ≤ 1)
    (hnr0 : 0 ≤ new_recency) (hnr1 : new_recency ≤ 100) :
    (rescoreWithDate scores verdict new_recency).keyword_score = scores.keyword_score
    ∧ (rescoreWithDate scores verdict new_recency).source_weight = scores.source_weight
    ∧ 0 ≤ (rescoreWithDate scores verdict new_recency).recency_score
    ∧ (rescoreWithDate scores verdict new_recency).recency_score ≤ 100
    ∧ 0 ≤ (rescoreWithDate scores verdict new_recency).relevance_score
    ∧ (rescoreWithDate scores verdict new_recency).relevance_score ≤ 115 := by
  have hb0 : (0 : ℚ) ≤ scores.keyword_score * 0.50 + new_recency * 0.30
      + scores.source_weight * 100 * 0.20 := by nlinarith
  have hb1 : scores.keyword_score * 0.50 + new_recency * 0.30
      + scores.source_weight * 100 * 0.20 ≤ 100 := by nlinarith
  have hbase0 : (0 : ℚ) ≤ round2 (scores.keyword_score * 0.50 + new_recency * 0.30
      + scores.source_weight * 100 * 0.20) :=
    by exact_mod_cast le_round2 _ 0 (by exact_mod_cast hb0)
  have hbase1 : round2 (scores.keyword_score * 0.50 + new_recency * 0.30
      + scores.source_weight * 100 * 0.20) ≤ 100 :=
    by exact_mod_cast round2_le _ 100 (by exact_mod_cast hb1)
  refine ⟨by cases verdict <;> rfl, by cases verdict <;> rfl, ?_, ?_, ?_, ?_⟩
  · have : (rescoreWithDate scores verdict new_recency).recency_score = round2 new_recency := by
      cases verdict <;> rfl
    rw [this]
    exact_mod_cast le_round2 _ 0 (by exact_mod_cast hnr0)
  · have : (rescoreWithDate scores verdict new_recency).recency_score = round2 new_recency := by
      cases verdict <;> rfl
    rw [this]
    exact_mod_cast round2_le _ 100 (by exact_mod_cast hnr1)
  · cases verdict with
    | none => exact hbase0
    | some v =>
      obtain ⟨hm0, hm1⟩ := triageMultiplier_bounds v
      have hp0 : (0 : ℚ) ≤ round2 (scores.keyword_score * 0.50 + new_recency * 0.30
          + scores.source_weight * 100 * 0.20) * triageMultiplier v := by positivity
      exact_mod_cast le_round2 _ 0 (by exact_mod_cast hp0)
  · cases verdict with
    | none => exact le_trans hbase1 (by norm_num)
    | some v =>
      obtain ⟨hm0, hm1⟩ := triageMultiplier_bounds v
      have hp1 : round2 (scores.keyword_score * 0.50 + new_recency * 0.30
          + scores.source_weight * 100 * 0.20) * triageMultiplier v ≤ 115 := by nlinarith
      exact_mod_cast round2_le _ 115 (by exact_mod_cast hp1)

theorem backfillDate_scores_bounds (env : EnrichEnv) (now : ℚ)
    (vinfo : Option VerdictRec) (md : Metadata) (item_url : String)
    (item_pd : Option ℚ) (scores1 : Scores) (verdict : Option String)
    (hkw0 : 0 ≤ scores1.keyword_score) (hkw1 : scores1.keyword_score ≤ 100)
    (hrc0 : 0 ≤ scores1.recency_score) (hrc1 : scores1.recency_score ≤ 100)
    (hsw0 : 0 ≤ scores1.source_weight) (hsw1 : scores1.source_weight ≤ 1)
    (hrl0 : 0 ≤ scores1.relevance_score) (hrl1 : scores1.relevance_score ≤ 115) :
    0 ≤ (backfillDate env now vinfo md item_url item_pd scores1 verdict).2.keyword_score
    ∧ (backfillDate env now vinfo md item_url item_pd scores1 verdict).2.keyword_score ≤ 100
    ∧ 0 ≤ (backfillDate env now vinfo md item_url item_pd scores1 verdict).2.recency_score
    ∧ (backfillDate env now vinfo md item_url item_pd scores1 verdict).2.recency_score ≤ 100
    ∧ 0 ≤ (backfillDate env now vinfo md item_url item_pd scores1 verdict).2.source_weight
    ∧ (backfillDate env now vinfo md item_url item_pd scores1 verdict).2.source_weight ≤ 1
    ∧ 0 ≤ (backfillDate env now vinfo md item_url item_pd scores1 verdict).2.relevance_score
    ∧ (backfillDate env now vinfo md item_url item_pd scores1 verdict).2.relevance_score ≤ 115 := by
  cases item_pd with
  | some d =>
    exact ⟨hkw0, hkw1, hrc0, hrc1, hsw0, hsw1, hrl0, hrl1⟩
  | none =>
    unfold backfillDate
    dsimp only
    split
    · exact ⟨hkw0, hkw1, hrc0, hrc1, hsw0, hsw1, hrl0, hrl1⟩
    · rename_i d heq
      obtain ⟨hnr0, hnr1⟩ := compute_recency_score_bounds now (some d)
      obtain ⟨e1, e2, e3, e4, e5, e6⟩ :=
        rescoreWithDate_bounds scores1 verdict (compute_recency_score now (some d))
          hkw0 hkw1 hsw0 hsw1 hnr0 hnr1
      refine ⟨?_, ?_, e3, e4, ?_, ?_, e5, e6⟩
      · rw [e1]; exact hkw0
      · rw [e1]; exact hkw1
      · rw [e2]; exact hsw0
      · rw [e2]; exact hsw1

theorem processItem_relevance_of_pd (env : EnrichEnv) (cfg : RunConfig)
    (publication_id : Nat) (now : ℚ) (st : EnrichState) (stats : RunStats)
    (item : DiscoveredItem) (source : NewsSourceLite) (hash_val : String)
    (vinfo : Option VerdictRec)
    (hnn : ¬ (vinfo.map (fun vi => vi.verdict)) = some "not_news")
    (d : ℚ) (hd : item.published_date = some d) :
    (processItem env cfg publication_id now st stats item source hash_val vinfo).candidate.relevance_score
      = some ((applyTriageMultiplier
          (score_candidate now item.title item.snippet (some d) source.source_type
            (cfg.industry_description.getD "") (source.keywords.getD ""))
          (vinfo.map (fun vi => vi.verdict))).relevance_score) := by
  unfold processItem
  rw [if_neg hnn]
  dsimp only
  rw [hd]
  simp only [backfillDate]

/-- C3 (amended): every candidate the phase-3 loop persists has
keywordScore and recencyScore in [0,100] and sourceWeight in [0,1], and the
composite before the triage multiplier is in [0,100]; after the relevant
×1.15 multiplier, however, the persisted relevanceScore is only guaranteed
to lie in [0,115] — a perfect-scoring relevant item exceeds 100. -/
theorem C3_persisted_score_bounds (env : EnrichEnv) (cfg : RunConfig)
    (publication_id : Nat) (now : ℚ) (st : EnrichState) (stats : RunStats)
    (item : DiscoveredItem) (source : NewsSourceLite) (hash_val : String)
    (vinfo : Option VerdictRec) :
    (∀ q : ℚ, (processItem env cfg publication_id now st stats item source hash_val
        vinfo).candidate.keyword_score = some q → 0 ≤ q ∧ q ≤ 100)
    ∧ (∀ q : ℚ, (processItem env cfg publication_id now st stats item source hash_val
        vinfo).candidate.recency_score = some q → 0 ≤ q ∧ q ≤ 100)
    ∧ (∀ q : ℚ, (processItem env cfg publication_id now st stats item source hash_val
        vinfo).candidate.source_weight = some q → 0 ≤ q ∧ q ≤ 1)
    ∧ (∀ q : ℚ, (processItem env cfg publication_id now st stats item source hash_val
        vinfo).candidate.relevance_score = some q → 0 ≤ q ∧ q ≤ 115)
    ∧ (0 ≤ (score_candidate now item.title item.snippet item.published_date
          source.source_type (cfg.industry_description.getD "")
          (source.keywords.getD "")).relevance_score
        ∧ (score_candidate now item.title item.snippet item.published_date
          source.source_type (cfg.industry_description.getD "")
          (source.keywords.getD "")).relevance_score ≤ 100) := by
  have hsc := score_candidate_bounds now item.title item.snippet item.published_date
    source.source_type (cfg.industry_description.getD "") (source.keywords.getD "")
  obtain ⟨k0, k1, r0, r1, w0, w1, v0, v1⟩ := hsc
  by_cases hnn : (vinfo.map (fun vi => vi.verdict)) = some "not_news"
  · unfold processItem
    rw [if_pos hnn]
    dsimp only
    refine ⟨?_, ?_, ?_, ?_, v0, v1⟩ <;>
      · intro q hq
        simp only [Option.some.injEq] at hq
        subst hq
        norm_num
  · have hf := applyTriageMultiplier_fields
      (score_candidate now item.title item.snippet item.published_date
        source.source_type (cfg.industry_description.getD "") (source.keywords.getD ""))
      (vinfo.map (fun vi => vi.verdict))
    have hrel := applyTriageMultiplier_relevance_bounds
      (score_candidate now item.title item.snippet item.published_date
        source.source_type (cfg.industry_description.getD "") (source.keywords.getD ""))
      (vinfo.map (fun vi => vi.verdict)) v0 v1
    have hball : ∀ md : Metadata,
        0 ≤ (backfillDate env now vinfo md item.url item.published_date
            (applyTriageMultiplier
              (score_candidate now item.title item.snippet item.published_date
                source.source_type (cfg.industry_description.getD "")
                (source.keywords.getD ""))
              (vinfo.map (fun vi => vi.verdict)))
            (vinfo.map (fun vi => vi.verdict))).2.keyword_score
        ∧ (backfillDate env now vinfo md item.url item.published_date
            (applyTriageMultiplier
              (score_candidate now item.title item.snippet item.published_date
                source.source_type (cfg.industry_description.getD "")
                (source.keywords.getD ""))
              (vinfo.map (fun vi => vi.verdict)))
            (vinfo.map (fun vi => vi.verdict))).2.keyword_score ≤ 100
        ∧ 0 ≤ (backfillDate env now vinfo md item.url item.published_date
            (applyTriageMultiplier
              (score_candidate now item.title item.snippet item.published_date
                source.source_type (cfg.industry_description.getD "")
                (source.keywords.getD ""))
              (vinfo.map (fun vi => vi.verdict)))
            (vinfo.map (fun vi => vi.verdict))).2.recency_score
        ∧ (backfillDate env now vinfo md item.url item.published_date
            (applyTriageMultiplier
              (score_candidate now item.title item.snippet item.published_date
                source.source_type (cfg.industry_description.getD "")
                (source.keywords.getD ""))
              (vinfo.map (fun vi => vi.verdict)))
            (vinfo.map (fun vi => vi.verdict))).2.recency_score ≤ 100
        ∧ 0 ≤ (backfillDate env now vinfo md item.url item.published_date
            (applyTriageMultiplier
              (score_candidate now item.title item.snippet item.published_date
                source.source_type (cfg.industry_description.getD "")
                (source.keywords.getD ""))
              (vinfo.map (fun vi => vi.verdict)))
            (vinfo.map (fun vi => vi.verdict))).2.source_weight
        ∧ (backfillDate env now vinfo md item.url item.published_date
            (applyTriageMultiplier
              (score_candidate now item.title item.snippet item.published_date
                source.source_type (cfg.industry_description.getD "")
                (source.keywords.getD ""))
              (vinfo.map (fun vi => vi.verdict)))
            (vinfo.map (fun vi => vi.verdict))).2.source_weight ≤ 1
        ∧ 0 ≤ (backfillDate env now vinfo md item.url item.published_date
            (applyTriageMultiplier
              (score_candidate now item.title item.snippet item.published_date
                source.source_type (cfg.industry_description.getD "")
                (source.keywords.getD ""))
              (vinfo.map (fun vi => vi.verdict)))
            (vinfo.map (fun vi => vi.verdict))).2.relevance_score
        ∧ (backfillDate env now vinfo md item.url item.published_date
            (applyTriageMultiplier
              (score_candidate now item.title item.snippet item.published_date
                source.source_type (cfg.industry_description.getD "")
                (source.keywords.getD ""))
              (vinfo.map (fun vi => vi.verdict)))
            (vinfo.map (fun vi => vi.verdict))).2.relevance_score ≤ 115 := by
      intro md
      exact backfillDate_scores_bounds env now vinfo md item.url item.published_date _ _
        (by rw [hf.1]; exact k0) (by rw [hf.1]; exact k1)
        (by rw [hf.2.1]; exact r0) (by rw [hf.2.1]; exact r1)
        (by rw [hf.2.2]; exact w0) (by rw [hf.2.2]; exact w1)
        hrel.1 hrel.2
    unfold processItem
    rw [if_neg hnn]
    dsimp only
    refine ⟨?_, ?_, ?_, ?_, v0, v1⟩
    · intro q hq
      simp only [Option.some.injEq] at hq
      subst hq
      exact ⟨(hball _).1, (hball _).2.1⟩
    · intro q hq
      simp only [Option.some.injEq] at hq
      subst hq
      exact ⟨(hball _).2.2.1, (hball _).2.2.2.1⟩
    · intro q hq
      simp only [Option.some.injEq] at hq
      subst hq
      exact ⟨(hball _).2.2.2.2.1, (hball _).2.2.2.2.2.1⟩
    · intro q hq
      simp only [Option.some.injEq] at hq
      subst hq
      exact ⟨(hball _).2.2.2.2.2.2.1, (hball _).2.2.2.2.2.2.2⟩

/-- C3 (counterexample to the claim as stated): an RSS item published now
whose title contains the publication's one industry term scores
keyword 100, recency 100, weight 1.0 → composite 100; the triage verdict
`relevant_news` multiplies by 1.15 and the orchestrator persists
`relevanceScore = 115`, outside [0,100]. -/
theorem C3_counterexample :
    (processItem
        ⟨fun _ => none, fun _ => .error "e", fun _ md _ => md, fun _ => none,
          fun _ => none, "t0"⟩
        ⟨25, 50, some "solar"⟩ 1 0 ⟨false⟩ {}
        { url := "https://x.test/solar-news", title := some "Solar",
          published_date := some 0 }
        ⟨3, "RSS Feed", none, none⟩ "h3"
        (some ⟨"https://x.test/solar-news", "relevant_news", .str "ok",
          none⟩)).candidate.relevance_score
      = some 115
    ∧ ¬ ((115 : ℚ) ≤ 100) := by
  constructor
  · rw [processItem_relevance_of_pd _ _ _ _ _ _ _ _ _ _ (by decide) 0 rfl]
    have hsc : score_candidate 0 (some "Solar") none (some 0) "RSS Feed" "solar" ""
        = ⟨100, 100, 1, 100⟩ := by
      have hkw : compute_keyword_score (some "Solar") none "solar" "" = 100 := by
        unfold compute_keyword_score
        rw [if_neg (by decide)]
        dsimp only
        rw [show ((extract_terms "solar" ++ extract_terms "").dedup.filter
          (fun term => pyIn term (lowerStr (((some "Solar").getD "") ++ " "
            ++ ((none : Option String).getD ""))))).length = 1 from by decide]
        rw [show (extract_terms "solar" ++ extract_terms "").dedup.length = 1 from by decide]
        norm_num
      have hrc : compute_recency_score 0 (some 0) = 100 := by
        norm_num [compute_recency_score]
      have hsw : get_source_weight "RSS Feed" = 1 := by
        norm_num [get_source_weight, SOURCE_WEIGHTS, List.lookup]
      unfold score_candidate
      dsimp only
      rw [hkw, hrc, hsw]
      norm_num [round2, pyRoundInt]
    simp only [Option.getD_some, Option.getD_none, Option.map_some]
    rw [hsc]
    unfold applyTriageMultiplier
    dsimp only
    norm_num [triageMultiplier, TRIAGE_MULTIPLIERS, List.lookup, round2, pyRoundInt]
  · norm_num

theorem C3_witness : 0 ≤ (0 : ℚ) ∧ (0 : ℚ) ≤ 100 :=
  (C3_persisted_score_bounds
    ⟨fun _ => none, fun _ => .error "e", fun _ md _ => md, fun _ => none,
      fun _ => none, "t0"⟩
    ⟨25, 50, none⟩ 1 0 ⟨false⟩ {} { url := "https://x.test/a" }
    ⟨7, "RSS Feed", none, none⟩ "h"
    (some ⟨"https://x.test/a", "not_news", .str "nav", none⟩)).1 0 rfl

/-- C7 (code bug): with an enrichment budget of 1 and two above-threshold
items — a YouTube item whose free transcript fetch fails, then a web item —
the failed free enrichment increments `enrichment_failed` without being
subtracted as a free call, so `firecrawl_calls = enriched +
enrichment_failed - _free_enrichments` reaches the budget and the web item
is marked budget-exhausted/skipped although zero Firecrawl calls were made
(`paidCalls = 0`): a failed free video enrichment consumes the paid crawl
budget, contradicting the claim and the code's own comment. -/
theorem C7_failed_free_enrichment_consumes_firecrawl_budget :
    (processItems
        ⟨fun _ => some "vid123", fun _ => .error "fetch failed", fun _ md _ => md,
          fun _ => none, fun _ => none, "t0"⟩
        ⟨25, 1, none⟩ 1 0 (fun _ => none)
        [({ url := "https://youtu.be/x", published_date := some 0 },
            ⟨1, "YouTube Keywords", none, none⟩, "h1"),
         ({ url := "https://site.test/a", published_date := some 0 },
            ⟨2, "News Site", none, none⟩, "h2")]
        ⟨{}, ⟨false⟩, [], 0⟩).paidCalls = 0
    ∧ (processItems
        ⟨fun _ => some "vid123", fun _ => .error "fetch failed", fun _ md _ => md,
          fun _ => none, fun _ => none, "t0"⟩
        ⟨25, 1, none⟩ 1 0 (fun _ => none)
        [({ url := "https://youtu.be/x", published_date := some 0 },
            ⟨1, "YouTube Keywords", none, none⟩, "h1"),
         ({ url := "https://site.test/a", published_date := some 0 },
            ⟨2, "News Site", none, none⟩, "h2")]
        ⟨{}, ⟨false⟩, [], 0⟩).stats
      = { new_candidates := 2, enriched := 0, enrichment_skipped := 1,
          enrichment_failed := 1, enrichment_budget_exhausted := 1,
          free_enrichments := 0, errors := 0 } := by
  have hsc1 : score_candidate 0 none none (some 0) "YouTube Keywords" "" ""
      = ⟨50, 100, 0.75, 70⟩ := by
    have hkw : compute_keyword_score none none "" "" = 50 := by
      unfold compute_keyword_score
      rw [if_pos (by decide)]
      norm_num
    have hrc : compute_recency_score 0 (some 0) = 100 := by
      norm_num [compute_recency_score]
    have hsw : get_source_weight "YouTube Keywords" = 0.75 := by
      simp only [get_source_weight, SOURCE_WEIGHTS, List.lookup]
      norm_num [show ("YouTube Keywords" == "RSS Feed") = false from by decide,
        show ("YouTube Keywords" == "News Site") = false from by decide,
        show ("YouTube Keywords" == "News") = false from by decide,
        show ("YouTube Keywords" == "Keyword Search") = false from by decide,
        show ("YouTube Keywords" == "YouTube Keywords") = true from by decide]
    unfold score_candidate
    dsimp only
    rw [hkw, hrc, hsw]
    norm_num [round2, pyRoundInt]
  have hsc2 : score_candidate 0 none none (some 0) "News Site" "" ""
      = ⟨50, 100, 0.9, 73⟩ := by
    have hkw : compute_keyword_score none none "" "" = 50 := by
      unfold compute_keyword_score
      rw [if_pos (by decide)]
      norm_num
    have hrc : compute_recency_score 0 (some 0) = 100 := by
      norm_num [compute_recency_score]
    have hsw : get_source_weight "News Site" = 0.9 := by
      simp only [get_source_weight, SOURCE_WEIGHTS, List.lookup]
      norm_num [show ("News Site" == "RSS Feed") = false from by decide,
        show ("News Site" == "News Site") = true from by decide]
    unfold score_candidate
    dsimp only
    rw [hkw, hrc, hsw]
    norm_num [round2, pyRoundInt]
  have henr : enrich_item
      ⟨fun _ => some "vid123", fun _ => .error "fetch failed", fun _ md _ => md,
        fun _ => none, fun _ => none, "t0"⟩ ⟨false⟩
      "https://youtu.be/x" [] "YouTube Keywords" none
      = ([("enrichment_failed", .bool true), ("enrichment_error", .str "fetch failed")],
        ⟨false⟩) := rfl
  have h1 : processItem
      ⟨fun _ => some "vid123", fun _ => .error "fetch failed", fun _ md _ => md,
        fun _ => none, fun _ => none, "t0"⟩
      ⟨25, 1, none⟩ 1 0 ⟨false⟩ {}
      { url := "https://youtu.be/x", published_date := some 0 }
      ⟨1, "YouTube Keywords", none, none⟩ "h1" none
      = { candidate :=
            { publication_id := 1, news_source_id := 1, url := "https://youtu.be/x",
              url_hash := "h1", title := none, snippet := none, author := none,
              published_date := some 0, relevance_score := some 70,
              keyword_score := some 50, recency_score := some 100,
              source_weight := some 0.75, status := "new",
              extra_metadata := some [("enrichment_failed", .bool true),
                ("enrichment_error", .str "fetch failed")] },
          stats := { new_candidates := 1, enrichment_failed := 1 },
          enrichState := ⟨false⟩, enrichCalled := true } := by
    unfold processItem
    rw [if_neg (by decide)]
    dsimp only
    simp only [Option.getD_some, Option.getD_none, Option.map_none]
    norm_num [hsc1, henr,
      show ∀ s : Scores, applyTriageMultiplier s none = s from fun s => rfl,
      show ¬("YouTube Keywords" = "Data") from by decide,
      mdHas, mdTruthy, mdGet, jTruthy, mdSet, List.lookup, backfillDate]
  have h2 : processItem
      ⟨fun _ => some "vid123", fun _ => .error "fetch failed", fun _ md _ => md,
        fun _ => none, fun _ => none, "t0"⟩
      ⟨25, 1, none⟩ 1 0 ⟨false⟩ { new_candidates := 1, enrichment_failed := 1 }
      { url := "https://site.test/a", published_date := some 0 }
      ⟨2, "News Site", none, none⟩ "h2" none
      = { candidate :=
            { publication_id := 1, news_source_id := 2, url := "https://site.test/a",
              url_hash := "h2", title := none, snippet := none, author := none,
              published_date := some 0, relevance_score := some 73,
              keyword_score := some 50, recency_score := some 100,
              source_weight := some 0.9, status := "new",
              extra_metadata := some [] },
          stats := { new_candidates := 2, enriched := 0, enrichment_skipped := 1,
                     enrichment_failed := 1, enrichment_budget_exhausted := 1,
                     free_enrichments := 0, errors := 0 },
          enrichState := ⟨false⟩, enrichCalled := false } := by
    unfold processItem
    rw [if_neg (by decide)]
    dsimp only
    simp only [Option.getD_some, Option.getD_none, Option.map_none]
    norm_num [hsc2,
      show ∀ s : Scores, applyTriageMultiplier s none = s from fun s => rfl,
      show ¬("News Site" = "Data") from by decide,
      show ¬("News Site" = "YouTube Keywords") from by decide,
      show ¬("News Site" = "RSS Feed") from by decide,
      mdHas, mdTruthy, mdGet, jTruthy, mdSet, List.lookup, backfillDate]
  constructor
  · simp only [processItems]
    try dsimp only
    rw [h1]
    try dsimp only
    rw [h2]
    norm_num [firecrawlPath, mdHas]
  · simp only [processItems]
    try dsimp only
    rw [h1]
    try dsimp only
    rw [h2]
